import Mathlib

/-!
# Convergence handlers of the orchestrator operator

A shallow embedding of `internal/controller/knative.go` and
`internal/controller/sonataflow.go`.

Every handler of the source is a sequence of blocking calls against the
cluster (through the controller-runtime client, the OLM client set and the
helpers of the `kube` package).  Those collaborators are not part of the
translated sources, so they are taken as a parameter: an `Env σ` gives, for an
arbitrary cluster state type `σ`, the answer of every call together with the
state after the call.  A handler is then a function from the state before the
pass to an `Outcome`: the Go `error` it returns, the state after the pass, the
list of calls it issued, in order, and whether it panicked instead of
returning.  The logger is a collaborator as well: the one log call of the
sources with an odd number of key/value arguments panics under a logger in
development mode.
-/

namespace Controller

/-! ## Errors -/

/-- A non-nil Go `error` as seen by the handlers: the only thing they ever ask
of an error is `apierrors.IsNotFound`. -/
inductive Err where
  | NotFound
  | AlreadyExists
  | Conflict
  | Other (msg : String)
  deriving DecidableEq, Repr

/-- The predicate `apierrors.IsNotFound`. -/
def IsNotFound : Err → Bool
  | .NotFound => true
  | _ => false

/-- A Go `error` value: `none` is `nil`. -/
abbrev GoError := Option Err

/-! ## Constants of `knative.go` -/

def KnativeAPIVersion : String := "operator.knative.dev/v1beta1"
def KnativeServingKind : String := "KnativeServing"
def KnativeServingNamespacedName : String := "knative-serving"
def KnativeEventingKind : String := "KnativeEventing"
def KnativeEventingNamespacedName : String := "knative-eventing"
def KnativeEventingCRDName : String := "knativeeventings.operator.knative.dev"
def KnativeServingCRDName : String := "knativeservings.operator.knative.dev"
def KnativeSubscriptionName : String := "serverless-operator"
def KnativeSubscriptionNamespace : String := "openshift-serverless"
def KnativeSubscriptionChannel : String := "stable"

/-! ## Constants of `sonataflow.go` -/

def SonataFlowAPIVersion : String := "sonataflow.org/v1alpha08"
def SonataFlowPlatformCRName : String := "sonataflow-platform"
def SonataFlowNamespace : String := "sonataflow-infra"
def SonataFlowPlatformKind : String := "SonataFlowPlatform"
def SonataFlowClusterPlatformKind : String := "SonataFlowClusterPlatform"
def SonataFlowClusterPlatformCRName : String := "cluster-platform"
def SonataFlowClusterPlatformCRDName : String := "sonataflowclusterplatforms.sonataflow.org"
def ServerlessLogicSubscriptionChannel : String := "alpha"
def ServerlessLogicOperatorNamespace : String := "openshift-serverless-logic"
def ServerlessLogicSubscriptionName : String := "logic-operator-rhel8"
def ServerlessLogicSubscriptionStartingCSV : String := "logic-operator-rhel8.v1.34.0"

/-! ## Object model -/

/-- The `metav1.TypeMeta` of an object. -/
structure TypeMeta where
  APIVersion : String := ""
  Kind : String := ""
  deriving DecidableEq, Repr

/-- The fields of `metav1.ObjectMeta` that the handlers set or that the store
uses as the version token of an observed object. -/
structure ObjectMeta where
  Name : String := ""
  Namespace : String := ""
  Labels : List (String × String) := []
  ResourceVersion : String := ""
  deriving DecidableEq, Repr

/-- The key `types.NamespacedName` of a retrieval. -/
structure NamespacedName where
  Namespace : String
  Name : String
  deriving DecidableEq, Repr

/-- The specification of an OLM subscription: package name, channel, catalog
source (name and namespace) and starting version. -/
structure SubscriptionSpec where
  CatalogSource : String := ""
  CatalogSourceNamespace : String := ""
  Package : String := ""
  Channel : String := ""
  StartingCSV : String := ""
  deriving DecidableEq, Repr

/-- An OLM subscription object. -/
structure Subscription where
  ObjectMeta : ObjectMeta := {}
  Spec : SubscriptionSpec := {}
  deriving DecidableEq, Repr

/-- The specification of a Knative eventing resource.  The type belongs to the
Knative operator API; the source only ever builds its zero value
`knative.KnativeEventingSpec{}`, so the content is kept as uninterpreted
settings, empty in the zero value. -/
structure KnativeEventingSpec where
  settings : List (String × String) := []
  deriving DecidableEq, Repr

/-- The specification of a Knative serving resource (see
`KnativeEventingSpec`). -/
structure KnativeServingSpec where
  settings : List (String × String) := []
  deriving DecidableEq, Repr

structure KnativeEventing where
  TypeMeta : TypeMeta := {}
  ObjectMeta : ObjectMeta := {}
  Spec : KnativeEventingSpec := {}
  deriving DecidableEq, Repr

structure KnativeServing where
  TypeMeta : TypeMeta := {}
  ObjectMeta : ObjectMeta := {}
  Spec : KnativeServingSpec := {}
  deriving DecidableEq, Repr

/-- The type `sonataapi.SonataFlowPlatformRef`. -/
structure SonataFlowPlatformRef where
  Name : String := ""
  Namespace : String := ""
  deriving DecidableEq, Repr

/-- The type `sonataapi.SonataFlowClusterPlatformSpec`. -/
structure SonataFlowClusterPlatformSpec where
  PlatformRef : SonataFlowPlatformRef := {}
  deriving DecidableEq, Repr

structure SonataFlowClusterPlatform where
  TypeMeta : TypeMeta := {}
  ObjectMeta : ObjectMeta := {}
  Spec : SonataFlowClusterPlatformSpec := {}
  deriving DecidableEq, Repr

/-- A `resource.Quantity`; its zero value is `Quantity{}`. -/
structure Quantity where
  milliValue : Int := 0
  deriving DecidableEq, Repr

/-- A `map[corev1.ResourceName]resource.Quantity`, as an association list. -/
abbrev ResourceList := List (String × Quantity)

def ResourceCPU : String := "cpu"
def ResourceMemory : String := "memory"

/-- The map assignment `m[k] = v`. -/
def ResourceList.set (m : ResourceList) (k : String) (v : Quantity) : ResourceList :=
  if m.any (fun p => p.1 == k) then
    m.map (fun p => if p.1 == k then (k, v) else p)
  else
    m ++ [(k, v)]

structure ResourceRequirements where
  Limits : ResourceList := []
  Requests : ResourceList := []
  deriving DecidableEq, Repr

structure BuildTemplate where
  Resources : ResourceRequirements := {}
  deriving DecidableEq, Repr

structure BuildPlatformSpec where
  Template : BuildTemplate := {}
  deriving DecidableEq, Repr

structure PostgreSQLSecretOptions where
  Name : String := ""
  UserKey : String := ""
  PasswordKey : String := ""
  deriving DecidableEq, Repr

structure SQLServiceOptions where
  Name : String := ""
  Namespace : String := ""
  DatabaseName : String := ""
  deriving DecidableEq, Repr

structure PostgreSQLServiceOptions where
  SQLServiceOptions : Option SQLServiceOptions := none
  deriving DecidableEq, Repr

structure PersistencePostgreSQL where
  SecretRef : PostgreSQLSecretOptions := {}
  ServiceRef : Option PostgreSQLServiceOptions := none
  deriving DecidableEq, Repr

structure PersistenceOptionsSpec where
  PostgreSQL : Option PersistencePostgreSQL := none
  deriving DecidableEq, Repr

structure ServiceSpec where
  Enabled : Option Bool := none
  Persistence : Option PersistenceOptionsSpec := none
  deriving DecidableEq, Repr

structure ServicesPlatformSpec where
  DataIndex : Option ServiceSpec := none
  JobService : Option ServiceSpec := none
  deriving DecidableEq, Repr

/-- The fields of `sonataapi.SonataFlowPlatformSpec` that the source sets. -/
structure SonataFlowPlatformSpec where
  Build : BuildPlatformSpec := {}
  Services : Option ServicesPlatformSpec := none
  deriving DecidableEq, Repr

structure SonataFlowPlatform where
  TypeMeta : TypeMeta := {}
  ObjectMeta : ObjectMeta := {}
  Spec : SonataFlowPlatformSpec := {}
  deriving DecidableEq, Repr

/-! ## The parent configuration (`orchestratorv1alpha1.Orchestrator`) -/

structure AuthSecret where
  SecretName : String := ""
  UserKey : String := ""
  PasswordKey : String := ""
  deriving DecidableEq, Repr

structure PostgresDB where
  ServiceName : String := ""
  ServiceNameSpace : String := ""
  DatabaseName : String := ""
  AuthSecret : AuthSecret := {}
  deriving DecidableEq, Repr

structure ResourceStrings where
  Cpu : String := ""
  Memory : String := ""
  deriving DecidableEq, Repr

structure PlatformResources where
  Limits : ResourceStrings := {}
  Requests : ResourceStrings := {}
  deriving DecidableEq, Repr

structure SonataFlowPlatformConfig where
  Resources : PlatformResources := {}
  deriving DecidableEq, Repr

structure OrchestratorConfig where
  SonataFlowPlatform : SonataFlowPlatformConfig := {}
  deriving DecidableEq, Repr

structure OrchestratorSpec where
  PostgresDB : PostgresDB := {}
  OrchestratorConfig : OrchestratorConfig := {}
  deriving DecidableEq, Repr

structure Orchestrator where
  Spec : OrchestratorSpec := {}
  deriving DecidableEq, Repr

/-! ## Calls against the cluster -/

/-- An object handed to `client.Create` or `client.Update`. -/
inductive Object where
  | subscription (o : Subscription)
  | knativeEventing (o : KnativeEventing)
  | knativeServing (o : KnativeServing)
  | sonataFlowClusterPlatform (o : SonataFlowClusterPlatform)
  | sonataFlowPlatform (o : SonataFlowPlatform)
  deriving DecidableEq, Repr

/-- The managed kinds that `client.Get` is asked for. -/
inductive ManagedKind where
  | knativeEventing
  | knativeServing
  | sonataFlowClusterPlatform
  | sonataFlowPlatform
  deriving DecidableEq, Repr

/-- One call issued by a handler.  `Delete` stands for `client.Delete` of an
object of the given kind (for instance a `CustomResourceDefinition`); it is
part of the client interface although no handler below issues it. -/
inductive Call where
  | CheckNamespaceExist (ns : String)
  | CreateNamespace (ns : String)
  | CheckSubscriptionExists (sub : Subscription)
  | InstallOperatorViaSubscription (operatorGroup : String) (sub : Subscription)
  | CheckCRDExists (name ns : String)
  | Get (kind : ManagedKind) (key : NamespacedName)
  | Create (obj : Object)
  | Update (obj : Object)
  | Delete (kind : String) (key : NamespacedName)
  | CleanUpNamespace (ns : String)
  | CleanUpSubscriptionAndCSV (sub : Subscription)
  deriving DecidableEq, Repr

/-- The collaborators of the handlers over a cluster state `σ`: the
controller-runtime client (`Get*`, `Create`, `Update`), the helpers and
constants of the `kube` package, and `resource.ParseQuantity`.  Every call
returns its answer and the state after the call. -/
structure Env (σ : Type) where
  CheckNamespaceExist : String → σ → GoError × σ
  CreateNamespace : String → σ → GoError × σ
  /-- The triple `(exists, observed, err)`; `observed` is the object behind the
  returned pointer and is only read by the handlers when `exists` holds. -/
  CheckSubscriptionExists : Subscription → σ → (Bool × Subscription × GoError) × σ
  InstallOperatorViaSubscription : String → Subscription → σ → GoError × σ
  CheckCRDExists : String → String → σ → GoError × σ
  GetKnativeEventing : NamespacedName → σ → Except Err KnativeEventing × σ
  GetKnativeServing : NamespacedName → σ → Except Err KnativeServing × σ
  GetSonataFlowClusterPlatform : NamespacedName → σ → Except Err SonataFlowClusterPlatform × σ
  GetSonataFlowPlatform : NamespacedName → σ → Except Err SonataFlowPlatform × σ
  Create : Object → σ → GoError × σ
  Update : Object → σ → GoError × σ
  CleanUpNamespace : String → σ → GoError × σ
  CleanUpSubscriptionAndCSV : Subscription → σ → GoError × σ
  /-- The label set of `kube.AddLabel()`. -/
  AddLabel : List (String × String)
  /-- The constant `kube.ServerlessOperatorGroupName`. -/
  ServerlessOperatorGroupName : String
  /-- The constant `kube.OpenshiftServerlessOperatorGroupName`. -/
  OpenshiftServerlessOperatorGroupName : String
  /-- The catalog source (name, namespace) that `kube.CreateSubscriptionObject`
  writes into a subscription. -/
  CatalogSourceName : String
  CatalogSourceNamespace : String
  /-- The function `resource.ParseQuantity`: the parsed quantity (the zero value on
  failure) and the error. -/
  ParseQuantity : String → Quantity × GoError
  /-- Whether the logger of `log.FromContext(ctx)` panics on a log call that is
  given an odd number of key/value arguments, as the zap logger of
  controller-runtime does in development mode; otherwise such a call only
  writes a log line. -/
  LogPanicsOnOddKeyValues : Bool

/-- What a handler leaves behind: the returned `error`, the state after the
pass, the calls issued, in order, and whether the handler panicked instead of
returning (`err` is then not a returned value and is left `nil`). -/
structure Outcome (σ : Type) where
  err : GoError
  state : σ
  trace : List Call
  panicked : Bool

/-- Whether a call `logger.Info(msg, keysAndValues...)` or
`logger.Error(err, msg, keysAndValues...)` with `n` key/value arguments
panics.  Every log call of the two source files has an even number of them,
except the one of `handleSonataFlowClusterCR` after a successful creation. -/
def logPanics {σ : Type} (k : Env σ) (n : Nat) : Bool :=
  k.LogPanicsOnOddKeyValues && n % 2 == 1

/-- Modelled from the spec: `kube.CreateSubscriptionObject` is not among the
translated sources.  The subscription descriptor is (name, namespace,
channel, optional pinned starting version) and the specification of the
install-intent object is (package name, channel, source, starting version);
the package is the subscription name. -/
def CreateSubscriptionObject {σ : Type} (k : Env σ)
    (subscriptionName ns channel startingCSV : String) : Subscription :=
  { ObjectMeta := { Name := subscriptionName, Namespace := ns }
    Spec :=
      { CatalogSource := k.CatalogSourceName
        CatalogSourceNamespace := k.CatalogSourceNamespace
        Package := subscriptionName
        Channel := channel
        StartingCSV := startingCSV } }

/-! ## `knative.go` -/

/-- The desired subscription of the serverless (Knative) operator. -/
def serverlessSubscription {σ : Type} (k : Env σ) : Subscription :=
  CreateSubscriptionObject k KnativeSubscriptionName KnativeSubscriptionNamespace
    KnativeSubscriptionChannel ""

/-- The function `handleKNativeOperatorInstallation` of `knative.go`. -/
def handleKNativeOperatorInstallation {σ : Type} (k : Env σ) (s : σ) : Outcome σ :=
  match k.CheckNamespaceExist KnativeSubscriptionNamespace s with
  | (some err, s1) =>
    if IsNotFound err then
      match k.CreateNamespace KnativeSubscriptionNamespace s1 with
      | (some _, s2) =>
        -- the creation error is logged, then `return nil`
        ⟨none, s2, [.CheckNamespaceExist KnativeSubscriptionNamespace,
                    .CreateNamespace KnativeSubscriptionNamespace], false⟩
      | (none, s2) =>
        -- falls out of the `if` to `return err` with the error of the check
        ⟨some err, s2, [.CheckNamespaceExist KnativeSubscriptionNamespace,
                        .CreateNamespace KnativeSubscriptionNamespace], false⟩
    else
      ⟨some err, s1, [.CheckNamespaceExist KnativeSubscriptionNamespace], false⟩
  | (none, s1) =>
    let sub := serverlessSubscription k
    match k.CheckSubscriptionExists sub s1 with
    | ((_, _, some err), s2) =>
      ⟨some err, s2, [.CheckNamespaceExist KnativeSubscriptionNamespace,
                      .CheckSubscriptionExists sub], false⟩
    | ((false, _, none), s2) =>
      match k.InstallOperatorViaSubscription k.ServerlessOperatorGroupName sub s2 with
      | (some err, s3) =>
        ⟨some err, s3, [.CheckNamespaceExist KnativeSubscriptionNamespace,
                        .CheckSubscriptionExists sub,
                        .InstallOperatorViaSubscription k.ServerlessOperatorGroupName sub], false⟩
      | (none, s3) =>
        ⟨none, s3, [.CheckNamespaceExist KnativeSubscriptionNamespace,
                    .CheckSubscriptionExists sub,
                    .InstallOperatorViaSubscription k.ServerlessOperatorGroupName sub], false⟩
    | ((true, existingSubscription, none), s2) =>
      if existingSubscription.Spec ≠ sub.Spec then
        let updated := { existingSubscription with Spec := sub.Spec }
        match k.Update (.subscription updated) s2 with
        | (some err, s3) =>
          ⟨some err, s3, [.CheckNamespaceExist KnativeSubscriptionNamespace,
                          .CheckSubscriptionExists sub, .Update (.subscription updated)], false⟩
        | (none, s3) =>
          ⟨none, s3, [.CheckNamespaceExist KnativeSubscriptionNamespace,
                      .CheckSubscriptionExists sub, .Update (.subscription updated)], false⟩
      else
        ⟨none, s2, [.CheckNamespaceExist KnativeSubscriptionNamespace,
                    .CheckSubscriptionExists sub], false⟩

/-- The function `handleKnativeEventingCR` of `knative.go`. -/
def handleKnativeEventingCR {σ : Type} (k : Env σ) (s : σ) : Outcome σ :=
  let key : NamespacedName :=
    { Name := KnativeEventingNamespacedName, Namespace := KnativeEventingNamespacedName }
  match k.GetKnativeEventing key s with
  | (.ok _, s1) =>
    -- update CR TODO
    ⟨none, s1, [.Get .knativeEventing key], false⟩
  | (.error err, s1) =>
    if IsNotFound err then
      let knEventing : KnativeEventing :=
        { TypeMeta := { APIVersion := KnativeAPIVersion, Kind := KnativeEventingKind }
          ObjectMeta :=
            { Name := KnativeEventingNamespacedName
              Namespace := KnativeEventingNamespacedName
              Labels := k.AddLabel }
          Spec := {} }
      -- `err = client.Create(...)` overwrites `err`, which is then returned
      match k.Create (.knativeEventing knEventing) s1 with
      | (err2, s2) =>
        ⟨err2, s2, [.Get .knativeEventing key, .Create (.knativeEventing knEventing)], false⟩
    else
      ⟨some err, s1, [.Get .knativeEventing key], false⟩

/-- The function `handleKnativeServingCR` of `knative.go`. -/
def handleKnativeServingCR {σ : Type} (k : Env σ) (s : σ) : Outcome σ :=
  let key : NamespacedName :=
    { Name := KnativeServingNamespacedName, Namespace := KnativeServingNamespacedName }
  match k.GetKnativeServing key s with
  | (.ok _, s1) =>
    -- update CR TODO
    ⟨none, s1, [.Get .knativeServing key], false⟩
  | (.error err, s1) =>
    if IsNotFound err then
      let knServing : KnativeServing :=
        { TypeMeta := { APIVersion := KnativeAPIVersion, Kind := KnativeServingKind }
          ObjectMeta :=
            { Name := KnativeServingNamespacedName
              Namespace := KnativeServingNamespacedName
              Labels := k.AddLabel }
          Spec := {} }
      match k.Create (.knativeServing knServing) s1 with
      | (err2, s2) =>
        ⟨err2, s2, [.Get .knativeServing key, .Create (.knativeServing knServing)], false⟩
    else
      ⟨some err, s1, [.Get .knativeServing key], false⟩

/-- The function `handleServerlessCR` of `knative.go`. -/
def handleServerlessCR {σ : Type} (k : Env σ) (s : σ) : Outcome σ :=
  let checkEventing := Call.CheckCRDExists KnativeEventingCRDName KnativeSubscriptionNamespace
  let checkServing := Call.CheckCRDExists KnativeServingCRDName KnativeSubscriptionNamespace
  match k.CheckCRDExists KnativeEventingCRDName KnativeSubscriptionNamespace s with
  | (some err, s1) =>
    if IsNotFound err then
      -- "CRD resource not found or ready", then `return err`
      ⟨some err, s1, [checkEventing], false⟩
    else
      ⟨some err, s1, [checkEventing], false⟩
  | (none, s1) =>
    let r1 := handleKnativeEventingCR k s1
    match r1.err with
    | some err => ⟨some err, r1.state, checkEventing :: r1.trace, false⟩
    | none =>
      match k.CheckCRDExists KnativeServingCRDName KnativeSubscriptionNamespace r1.state with
      | (some err, s2) =>
        if IsNotFound err then
          -- "CRD resource not found or ready", then `return nil`
          ⟨none, s2, checkEventing :: r1.trace ++ [checkServing], false⟩
        else
          ⟨some err, s2, checkEventing :: r1.trace ++ [checkServing], false⟩
      | (none, s2) =>
        let r2 := handleKnativeServingCR k s2
        match r2.err with
        | some err =>
          ⟨some err, r2.state, checkEventing :: r1.trace ++ checkServing :: r2.trace, false⟩
        | none =>
          ⟨none, r2.state, checkEventing :: r1.trace ++ checkServing :: r2.trace, false⟩

/-- The function `handleKnativeCleanUp` of `knative.go`. -/
def handleKnativeCleanUp {σ : Type} (k : Env σ) (s : σ) : Outcome σ :=
  match k.CleanUpNamespace KnativeEventingNamespacedName s with
  | (some err, s1) => ⟨some err, s1, [.CleanUpNamespace KnativeEventingNamespacedName], false⟩
  | (none, s1) =>
    match k.CleanUpNamespace KnativeServingNamespacedName s1 with
    | (some err, s2) =>
      ⟨some err, s2, [.CleanUpNamespace KnativeEventingNamespacedName,
                      .CleanUpNamespace KnativeServingNamespacedName], false⟩
    | (none, s2) =>
      let sub := serverlessSubscription k
      match k.CleanUpSubscriptionAndCSV sub s2 with
      | (some err, s3) =>
        ⟨some err, s3, [.CleanUpNamespace KnativeEventingNamespacedName,
                        .CleanUpNamespace KnativeServingNamespacedName,
                        .CleanUpSubscriptionAndCSV sub], false⟩
      | (none, s3) =>
        ⟨none, s3, [.CleanUpNamespace KnativeEventingNamespacedName,
                    .CleanUpNamespace KnativeServingNamespacedName,
                    .CleanUpSubscriptionAndCSV sub], false⟩

/-! ## `sonataflow.go` -/

/-- The desired subscription of the serverless-logic (OSL) operator. -/
def oslSubscription {σ : Type} (k : Env σ) : Subscription :=
  CreateSubscriptionObject k ServerlessLogicSubscriptionName ServerlessLogicOperatorNamespace
    ServerlessLogicSubscriptionChannel ServerlessLogicSubscriptionStartingCSV

/-- The function `handleOSLOperatorInstallation` of `sonataflow.go`. -/
def handleOSLOperatorInstallation {σ : Type} (k : Env σ) (s : σ) : Outcome σ :=
  match k.CheckNamespaceExist ServerlessLogicOperatorNamespace s with
  | (some err, s1) =>
    if IsNotFound err then
      match k.CreateNamespace ServerlessLogicOperatorNamespace s1 with
      | (some _, s2) =>
        -- the creation error is logged, then `return nil`
        ⟨none, s2, [.CheckNamespaceExist ServerlessLogicOperatorNamespace,
                    .CreateNamespace ServerlessLogicOperatorNamespace], false⟩
      | (none, s2) =>
        -- falls out of the `if` to `return err` with the error of the check
        ⟨some err, s2, [.CheckNamespaceExist ServerlessLogicOperatorNamespace,
                        .CreateNamespace ServerlessLogicOperatorNamespace], false⟩
    else
      ⟨some err, s1, [.CheckNamespaceExist ServerlessLogicOperatorNamespace], false⟩
  | (none, s1) =>
    let sub := oslSubscription k
    match k.CheckSubscriptionExists sub s1 with
    | ((_, _, some err), s2) =>
      ⟨some err, s2, [.CheckNamespaceExist ServerlessLogicOperatorNamespace,
                      .CheckSubscriptionExists sub], false⟩
    | ((false, _, none), s2) =>
      match k.InstallOperatorViaSubscription k.OpenshiftServerlessOperatorGroupName sub s2 with
      | (some err, s3) =>
        ⟨some err, s3, [.CheckNamespaceExist ServerlessLogicOperatorNamespace,
                        .CheckSubscriptionExists sub,
                        .InstallOperatorViaSubscription k.OpenshiftServerlessOperatorGroupName sub], false⟩
      | (none, s3) =>
        ⟨none, s3, [.CheckNamespaceExist ServerlessLogicOperatorNamespace,
                    .CheckSubscriptionExists sub,
                    .InstallOperatorViaSubscription k.OpenshiftServerlessOperatorGroupName sub], false⟩
    | ((true, existingSubscription, none), s2) =>
      if existingSubscription.Spec ≠ sub.Spec then
        let updated := { existingSubscription with Spec := sub.Spec }
        match k.Update (.subscription updated) s2 with
        | (some err, s3) =>
          ⟨some err, s3, [.CheckNamespaceExist ServerlessLogicOperatorNamespace,
                          .CheckSubscriptionExists sub, .Update (.subscription updated)], false⟩
        | (none, s3) =>
          ⟨none, s3, [.CheckNamespaceExist ServerlessLogicOperatorNamespace,
                      .CheckSubscriptionExists sub, .Update (.subscription updated)], false⟩
      else
        ⟨none, s2, [.CheckNamespaceExist ServerlessLogicOperatorNamespace,
                    .CheckSubscriptionExists sub], false⟩

/-- The function `getSonataFlowPersistence` of `sonataflow.go`. -/
def getSonataFlowPersistence (orchestrator : Orchestrator) : Option PersistenceOptionsSpec :=
  some
    { PostgreSQL := some
        { SecretRef :=
            { Name := orchestrator.Spec.PostgresDB.AuthSecret.SecretName
              UserKey := orchestrator.Spec.PostgresDB.AuthSecret.UserKey
              PasswordKey := orchestrator.Spec.PostgresDB.AuthSecret.PasswordKey }
          ServiceRef := some
            { SQLServiceOptions := some
                { Name := orchestrator.Spec.PostgresDB.ServiceName
                  Namespace := orchestrator.Spec.PostgresDB.ServiceNameSpace
                  DatabaseName := orchestrator.Spec.PostgresDB.DatabaseName } } } }

/-- The function `getSonataFlowClusterSpec` of `sonataflow.go`. -/
def getSonataFlowClusterSpec : SonataFlowClusterPlatformSpec :=
  { PlatformRef :=
      { Name := SonataFlowClusterPlatformCRName
        Namespace := SonataFlowNamespace } }

/-- The function `getSonataFlowPlatformSpec` of `sonataflow.go`.  The error of
every `resource.ParseQuantity` is assigned to `_`. -/
def getSonataFlowPlatformSpec {σ : Type} (k : Env σ) (orchestrator : Orchestrator) :
    SonataFlowPlatformSpec :=
  let limitResourceMap : ResourceList := []
  let cpuQuantity :=
    (k.ParseQuantity orchestrator.Spec.OrchestratorConfig.SonataFlowPlatform.Resources.Limits.Cpu).1
  let memoryQuantity :=
    (k.ParseQuantity
      orchestrator.Spec.OrchestratorConfig.SonataFlowPlatform.Resources.Limits.Memory).1
  let limitResourceMap := limitResourceMap.set ResourceCPU cpuQuantity
  let limitResourceMap := limitResourceMap.set ResourceMemory memoryQuantity
  let requestResourceMap : ResourceList := []
  let requestCpuQuantity :=
    (k.ParseQuantity
      orchestrator.Spec.OrchestratorConfig.SonataFlowPlatform.Resources.Requests.Cpu).1
  let requestMemoryQuantity :=
    (k.ParseQuantity
      orchestrator.Spec.OrchestratorConfig.SonataFlowPlatform.Resources.Requests.Memory).1
  let requestResourceMap := requestResourceMap.set ResourceCPU requestCpuQuantity
  let requestResourceMap := requestResourceMap.set ResourceMemory requestMemoryQuantity
  { Build :=
      { Template :=
          { Resources := { Limits := limitResourceMap, Requests := requestResourceMap } } }
    Services := some
      { DataIndex := some
          { Enabled := some true, Persistence := getSonataFlowPersistence orchestrator }
        JobService := some
          { Enabled := some true, Persistence := getSonataFlowPersistence orchestrator } } }

/-- The function `handleSonataFlowClusterCR` of `sonataflow.go`. -/
def handleSonataFlowClusterCR {σ : Type} (k : Env σ) (crName : String) (s : σ) : Outcome σ :=
  let key : NamespacedName := { Name := crName, Namespace := SonataFlowNamespace }
  match k.GetSonataFlowClusterPlatform key s with
  | (.ok sfcCR, s1) =>
    let sfcCR := { sfcCR with Spec := getSonataFlowClusterSpec }
    -- the error of `client.Update` is logged, then `return nil`
    match k.Update (.sonataFlowClusterPlatform sfcCR) s1 with
    | (_, s2) =>
      ⟨none, s2, [.Get .sonataFlowClusterPlatform key,
                  .Update (.sonataFlowClusterPlatform sfcCR)], false⟩
  | (.error err, s1) =>
    if IsNotFound err then
      let sonataFlowClusterCR : SonataFlowClusterPlatform :=
        { TypeMeta :=
            { APIVersion := SonataFlowAPIVersion, Kind := SonataFlowClusterPlatformKind }
          ObjectMeta :=
            { Name := SonataFlowClusterPlatformCRName
              Namespace := SonataFlowNamespace
              Labels := k.AddLabel }
          Spec := getSonataFlowClusterSpec }
      match k.Create (.sonataFlowClusterPlatform sonataFlowClusterCR) s1 with
      | (some err2, s2) =>
        ⟨some err2, s2, [.Get .sonataFlowClusterPlatform key,
                         .Create (.sonataFlowClusterPlatform sonataFlowClusterCR)], false⟩
      | (none, s2) =>
        -- `logger.Info("Successfully created ... %s", sonataFlowClusterCR.Name)`:
        -- one key/value argument
        ⟨none, s2, [.Get .sonataFlowClusterPlatform key,
                    .Create (.sonataFlowClusterPlatform sonataFlowClusterCR)], logPanics k 1⟩
    else
      ⟨some err, s1, [.Get .sonataFlowClusterPlatform key], false⟩

/-- The function `handleSonataFlowPlatformCR` of `sonataflow.go`; `crName` only
appears in log lines. -/
def handleSonataFlowPlatformCR {σ : Type} (k : Env σ) (orchestrator : Orchestrator)
    (_crName : String) (s : σ) : Outcome σ :=
  let key : NamespacedName :=
    { Namespace := SonataFlowNamespace, Name := SonataFlowPlatformCRName }
  match k.GetSonataFlowPlatform key s with
  | (.ok sfpCR, s1) =>
    -- `err = client.Update(ctx, sfpCR)`, then `return nil`
    match k.Update (.sonataFlowPlatform sfpCR) s1 with
    | (_, s2) =>
      ⟨none, s2, [.Get .sonataFlowPlatform key, .Update (.sonataFlowPlatform sfpCR)], false⟩
  | (.error err, s1) =>
    if IsNotFound err then
      let sonataFlowPlatformCR : SonataFlowPlatform :=
        { TypeMeta := { APIVersion := SonataFlowAPIVersion, Kind := SonataFlowPlatformKind }
          ObjectMeta :=
            { Name := SonataFlowPlatformCRName
              Namespace := SonataFlowNamespace
              Labels := k.AddLabel }
          Spec := getSonataFlowPlatformSpec k orchestrator }
      match k.Create (.sonataFlowPlatform sonataFlowPlatformCR) s1 with
      | (some err2, s2) =>
        ⟨some err2, s2, [.Get .sonataFlowPlatform key,
                         .Create (.sonataFlowPlatform sonataFlowPlatformCR)], false⟩
      | (none, s2) =>
        ⟨none, s2, [.Get .sonataFlowPlatform key,
                    .Create (.sonataFlowPlatform sonataFlowPlatformCR)], false⟩
    else
      ⟨some err, s1, [.Get .sonataFlowPlatform key], false⟩

/-- The function `handleServerlessLogicCR` of `sonataflow.go`. -/
def handleServerlessLogicCR {σ : Type} (k : Env σ) (orchestrator : Orchestrator) (s : σ) :
    Outcome σ :=
  let r1 := handleSonataFlowClusterCR k SonataFlowClusterPlatformCRName s
  if r1.panicked then
    -- a panic of the callee unwinds through this function
    ⟨none, r1.state, r1.trace, true⟩
  else
    match r1.err with
    | some err => ⟨some err, r1.state, r1.trace, false⟩
    | none =>
      let r2 :=
        handleSonataFlowPlatformCR k orchestrator SonataFlowClusterPlatformCRName r1.state
      if r2.panicked then
        ⟨none, r2.state, r1.trace ++ r2.trace, true⟩
      else
        match r2.err with
        | some err => ⟨some err, r2.state, r1.trace ++ r2.trace, false⟩
        | none => ⟨none, r2.state, r1.trace ++ r2.trace, false⟩

/-- The function `handleSonataFlowCleanUp` of `sonataflow.go`. -/
def handleSonataFlowCleanUp {σ : Type} (k : Env σ) (s : σ) : Outcome σ :=
  match k.CleanUpNamespace SonataFlowNamespace s with
  | (some err, s1) => ⟨some err, s1, [.CleanUpNamespace SonataFlowNamespace], false⟩
  | (none, s1) =>
    let sub := oslSubscription k
    match k.CleanUpSubscriptionAndCSV sub s1 with
    | (some err, s2) =>
      ⟨some err, s2, [.CleanUpNamespace SonataFlowNamespace, .CleanUpSubscriptionAndCSV sub], false⟩
    | (none, s2) =>
      ⟨none, s2, [.CleanUpNamespace SonataFlowNamespace, .CleanUpSubscriptionAndCSV sub], false⟩

/-! ## Reading a trace -/

/-- The managed kind of an object handed to the client, if it is one. -/
def Object.kind : Object → Option ManagedKind
  | .subscription _ => none
  | .knativeEventing _ => some .knativeEventing
  | .knativeServing _ => some .knativeServing
  | .sonataFlowClusterPlatform _ => some .sonataFlowClusterPlatform
  | .sonataFlowPlatform _ => some .sonataFlowPlatform

/-- The type metadata of an object handed to the client. -/
def Object.typeMeta : Object → TypeMeta
  | .subscription _ => {}
  | .knativeEventing o => o.TypeMeta
  | .knativeServing o => o.TypeMeta
  | .sonataFlowClusterPlatform o => o.TypeMeta
  | .sonataFlowPlatform o => o.TypeMeta

/-- The object metadata of an object handed to the client. -/
def Object.objectMeta : Object → ObjectMeta
  | .subscription o => o.ObjectMeta
  | .knativeEventing o => o.ObjectMeta
  | .knativeServing o => o.ObjectMeta
  | .sonataFlowClusterPlatform o => o.ObjectMeta
  | .sonataFlowPlatform o => o.ObjectMeta

/-- A `client.Create` call. -/
def Call.isCreate : Call → Bool
  | .Create _ => true
  | _ => false

/-- A `client.Update` call. -/
def Call.isUpdate : Call → Bool
  | .Update _ => true
  | _ => false

/-- A `kube.InstallOperatorViaSubscription` call. -/
def Call.isInstall : Call → Bool
  | .InstallOperatorViaSubscription _ _ => true
  | _ => false

/-- A `client.Delete` call. -/
def Call.isDelete : Call → Bool
  | .Delete _ _ => true
  | _ => false

/-- A `kube.CleanUpNamespace` call. -/
def Call.isCleanUpNamespace : Call → Bool
  | .CleanUpNamespace _ => true
  | _ => false

/-- A `kube.CleanUpSubscriptionAndCSV` call. -/
def Call.isCleanUpSubscriptionAndCSV : Call → Bool
  | .CleanUpSubscriptionAndCSV _ => true
  | _ => false

/-- A call that changes the cluster (everything but the existence checks and
retrievals). -/
def Call.isMutating : Call → Bool
  | .CheckNamespaceExist _ => false
  | .CheckSubscriptionExists _ => false
  | .CheckCRDExists _ _ => false
  | .Get _ _ => false
  | _ => true

/-- A get, create or update call for a custom resource of kind `kd`. -/
def Call.onKind (kd : ManagedKind) : Call → Bool
  | .Get kd2 _ => kd2 == kd
  | .Create o => o.kind == some kd
  | .Update o => o.kind == some kd
  | _ => false

/-- A get, create or update call for any managed custom resource. -/
def Call.isCustomResourceCall : Call → Bool
  | .Get _ _ => true
  | .Create o => o.kind.isSome
  | .Update o => o.kind.isSome
  | _ => false

/-! ## A concrete cluster

A small in-memory cluster with injectable failures, used to run the handlers
on concrete inputs. -/

/-- The state of the in-memory cluster. -/
structure Cluster where
  namespaces : List String := []
  subscriptions : List Subscription := []
  crds : List String := []
  eventing : Option KnativeEventing := none
  serving : Option KnativeServing := none
  clusterPlatform : Option SonataFlowClusterPlatform := none
  platform : Option SonataFlowPlatform := none
  /-- The answer of the next `CreateNamespace`. -/
  createNamespaceErr : GoError := none
  /-- The answer of the next `InstallOperatorViaSubscription`. -/
  installErr : GoError := none
  /-- The answer of the next `Create`. -/
  createErr : GoError := none
  /-- The answer of the next `Update`. -/
  updateErr : GoError := none
  /-- The namespaces whose clean-up fails. -/
  stuckNamespaces : List String := []
  /-- The answer of the next `CleanUpSubscriptionAndCSV`. -/
  cleanUpSubscriptionErr : GoError := none
  deriving DecidableEq, Repr

/-- Whether two subscriptions have the same name and namespace. -/
def sameIdentity (a b : Subscription) : Bool :=
  a.ObjectMeta.Name == b.ObjectMeta.Name && a.ObjectMeta.Namespace == b.ObjectMeta.Namespace

/-- Store an object in the in-memory cluster. -/
def Cluster.put (c : Cluster) : Object → Cluster
  | .subscription o =>
    { c with subscriptions := o :: c.subscriptions.filter (fun x => !sameIdentity x o) }
  | .knativeEventing o => { c with eventing := some o }
  | .knativeServing o => { c with serving := some o }
  | .sonataFlowClusterPlatform o => { c with clusterPlatform := some o }
  | .sonataFlowPlatform o => { c with platform := some o }

/-- Retrieval of a singleton resource by key. -/
def lookup {α : Type} (metaOf : α → ObjectMeta) (slot : Option α) (key : NamespacedName) :
    Except Err α :=
  match slot with
  | some o =>
    if (metaOf o).Name == key.Name && (metaOf o).Namespace == key.Namespace then .ok o
    else .error .NotFound
  | none => .error .NotFound

/-- The number written by a list of decimal digits, most significant first. -/
def digitsValue (cs : List Char) : Nat :=
  cs.foldl (fun n c => 10 * n + (c.toNat - 48)) 0

/-- A quantity parser for the in-memory cluster: a string of decimal digits is
that many units, anything else is rejected. -/
def parseDigits (str : String) : Quantity × GoError :=
  if !str.data.isEmpty && str.data.all Char.isDigit then
    ({ milliValue := 1000 * (digitsValue str.data : Int) }, none)
  else
    ({}, some (.Other "quantities must match the regular expression"))

/-- The answer of the in-memory cluster to `kube.CheckNamespaceExist`. -/
def Cluster.checkNamespaceExist (ns : String) (c : Cluster) : GoError × Cluster :=
  (if c.namespaces.contains ns then none else some .NotFound, c)

/-- The answer of the in-memory cluster to `kube.CreateNamespace`. -/
def Cluster.createNamespace (ns : String) (c : Cluster) : GoError × Cluster :=
  match c.createNamespaceErr with
  | some e => (some e, c)
  | none => (none, { c with namespaces := ns :: c.namespaces })

/-- The answer of the in-memory cluster to `kube.CheckSubscriptionExists`. -/
def Cluster.checkSubscriptionExists (sub : Subscription) (c : Cluster) :
    (Bool × Subscription × GoError) × Cluster :=
  match c.subscriptions.find? (fun x => sameIdentity x sub) with
  | some o => ((true, o, none), c)
  | none => ((false, {}, none), c)

/-- The answer of the in-memory cluster to `kube.InstallOperatorViaSubscription`. -/
def Cluster.installOperatorViaSubscription (_group : String) (sub : Subscription)
    (c : Cluster) : GoError × Cluster :=
  match c.installErr with
  | some e => (some e, c)
  | none => (none, c.put (.subscription sub))

/-- The answer of the in-memory cluster to `kube.CheckCRDExists`. -/
def Cluster.checkCRDExists (name _ns : String) (c : Cluster) : GoError × Cluster :=
  (if c.crds.contains name then none else some .NotFound, c)

/-- The answer of the in-memory cluster to `client.Create`. -/
def Cluster.create (o : Object) (c : Cluster) : GoError × Cluster :=
  match c.createErr with
  | some e => (some e, c)
  | none => (none, c.put o)

/-- The answer of the in-memory cluster to `client.Update`. -/
def Cluster.update (o : Object) (c : Cluster) : GoError × Cluster :=
  match c.updateErr with
  | some e => (some e, c)
  | none => (none, c.put o)

/-- The answer of the in-memory cluster to `kube.CleanUpNamespace`. -/
def Cluster.cleanUpNamespace (ns : String) (c : Cluster) : GoError × Cluster :=
  if c.stuckNamespaces.contains ns then (some (.Other "namespace is stuck terminating"), c)
  else (none, { c with namespaces := c.namespaces.filter (fun x => x != ns) })

/-- The answer of the in-memory cluster to `kube.CleanUpSubscriptionAndCSV`. -/
def Cluster.cleanUpSubscriptionAndCSV (sub : Subscription) (c : Cluster) : GoError × Cluster :=
  match c.cleanUpSubscriptionErr with
  | some e => (some e, c)
  | none =>
    (none, { c with subscriptions := c.subscriptions.filter (fun x => !sameIdentity x sub) })

/-- The collaborators of the handlers over the in-memory cluster. -/
def fakeEnv : Env Cluster where
  CheckNamespaceExist := Cluster.checkNamespaceExist
  CreateNamespace := Cluster.createNamespace
  CheckSubscriptionExists := Cluster.checkSubscriptionExists
  InstallOperatorViaSubscription := Cluster.installOperatorViaSubscription
  CheckCRDExists := Cluster.checkCRDExists
  GetKnativeEventing := fun key c => (lookup (fun o => o.ObjectMeta) c.eventing key, c)
  GetKnativeServing := fun key c => (lookup (fun o => o.ObjectMeta) c.serving key, c)
  GetSonataFlowClusterPlatform := fun key c =>
    (lookup (fun o => o.ObjectMeta) c.clusterPlatform key, c)
  GetSonataFlowPlatform := fun key c => (lookup (fun o => o.ObjectMeta) c.platform key, c)
  Create := Cluster.create
  Update := Cluster.update
  CleanUpNamespace := Cluster.cleanUpNamespace
  CleanUpSubscriptionAndCSV := Cluster.cleanUpSubscriptionAndCSV
  AddLabel := [("app", "orchestrator")]
  ServerlessOperatorGroupName := "serverless-operator-group"
  OpenshiftServerlessOperatorGroupName := "openshift-serverless-logic"
  CatalogSourceName := "redhat-operators"
  CatalogSourceNamespace := "openshift-marketplace"
  ParseQuantity := parseDigits
  LogPanicsOnOddKeyValues := false

/-- The collaborators over the in-memory cluster with a logger in development
mode. -/
def devEnv : Env Cluster := { fakeEnv with LogPanicsOnOddKeyValues := true }

/-- An empty cluster: no namespace, no subscription, no CRD, no custom
resource; every call succeeds. -/
def emptyCluster : Cluster := {}

/-- An empty cluster in which namespace creation is rejected. -/
def forbiddenCluster : Cluster := { createNamespaceErr := some (.Other "forbidden") }

/-- The Knative subscription as observed on channel `alpha`, with version token
`"41"`; apart from the channel its specification is the desired one. -/
def alphaSubscription : Subscription :=
  { ObjectMeta :=
      { Name := KnativeSubscriptionName, Namespace := KnativeSubscriptionNamespace
        ResourceVersion := "41" }
    Spec := { (serverlessSubscription fakeEnv).Spec with Channel := "alpha" } }

/-- The serverless-logic subscription as observed with the desired
specification and version token `"7"`. -/
def settledSubscription : Subscription :=
  { ObjectMeta :=
      { Name := ServerlessLogicSubscriptionName, Namespace := ServerlessLogicOperatorNamespace
        ResourceVersion := "7" }
    Spec := (oslSubscription fakeEnv).Spec }

/-- A cluster with both operator namespaces, in which both subscriptions are
installed: the Knative one on channel `alpha`, the serverless-logic one with
the desired specification. -/
def driftedCluster : Cluster :=
  { namespaces := [KnativeSubscriptionNamespace, ServerlessLogicOperatorNamespace]
    subscriptions := [alphaSubscription, settledSubscription] }

/-- A parent configuration with parseable resource quantities. -/
def sampleOrchestrator : Orchestrator :=
  { Spec :=
      { PostgresDB :=
          { ServiceName := "sonataflow-psql-postgresql"
            ServiceNameSpace := "sonataflow-infra"
            DatabaseName := "sonataflow"
            AuthSecret :=
              { SecretName := "sonataflow-psql-postgresql"
                UserKey := "postgres-username"
                PasswordKey := "postgres-password" } }
        OrchestratorConfig :=
          { SonataFlowPlatform :=
              { Resources :=
                  { Limits := { Cpu := "2", Memory := "4" }
                    Requests := { Cpu := "1", Memory := "1" } } } } } }

/-- An empty cluster in which `client.Create` is rejected. -/
def readOnlyCluster : Cluster := { createErr := some (.Other "forbidden") }

/-- A Knative eventing resource observed with a specification that is not the
zero value the handler would create. -/
def customisedEventing : KnativeEventing :=
  { TypeMeta := { APIVersion := KnativeAPIVersion, Kind := KnativeEventingKind }
    ObjectMeta :=
      { Name := KnativeEventingNamespacedName, Namespace := KnativeEventingNamespacedName
        ResourceVersion := "3" }
    Spec := { settings := [("sinkBindingSelectionMode", "inclusion")] } }

/-- The cluster-platform resource observed with the desired specification. -/
def settledClusterPlatform : SonataFlowClusterPlatform :=
  { TypeMeta := { APIVersion := SonataFlowAPIVersion, Kind := SonataFlowClusterPlatformKind }
    ObjectMeta :=
      { Name := SonataFlowClusterPlatformCRName, Namespace := SonataFlowNamespace
        ResourceVersion := "12" }
    Spec := getSonataFlowClusterSpec }

/-- The platform resource observed with the specification built from
`sampleOrchestrator`. -/
def settledPlatform : SonataFlowPlatform :=
  { TypeMeta := { APIVersion := SonataFlowAPIVersion, Kind := SonataFlowPlatformKind }
    ObjectMeta :=
      { Name := SonataFlowPlatformCRName, Namespace := SonataFlowNamespace
        ResourceVersion := "13" }
    Spec := getSonataFlowPlatformSpec fakeEnv sampleOrchestrator }

/-- A cluster in which every managed custom resource is present. -/
def settledCluster : Cluster :=
  { crds := [KnativeEventingCRDName, KnativeServingCRDName]
    eventing := some customisedEventing
    clusterPlatform := some settledClusterPlatform
    platform := some settledPlatform }

/-- The cluster `settledCluster` when it rejects every update with a conflict. -/
def conflictingCluster : Cluster := { settledCluster with updateErr := some .Conflict }

/-- A cluster in which the cluster-platform resource is present with the
desired specification and the platform resource is absent. -/
def halfSettledCluster : Cluster := { clusterPlatform := some settledClusterPlatform }

/-- A cluster on which only the Knative eventing CRD is established. -/
def eventingOnlyCluster : Cluster := { crds := [KnativeEventingCRDName] }

/-- A cluster on which both Knative CRDs are established and no custom
resource exists yet. -/
def readyCluster : Cluster := { crds := [KnativeEventingCRDName, KnativeServingCRDName] }

/-- A cluster with every managed namespace and both subscriptions, in which
the clean-up of the Knative serving namespace fails. -/
def stuckCluster : Cluster :=
  { namespaces :=
      [KnativeEventingNamespacedName, KnativeServingNamespacedName, SonataFlowNamespace]
    subscriptions := [alphaSubscription, settledSubscription]
    stuckNamespaces := [KnativeServingNamespacedName] }

/-- A parent configuration whose CPU limit is not a quantity; the three other
quantity strings are those of `sampleOrchestrator`. -/
def brokenOrchestrator : Orchestrator :=
  { sampleOrchestrator with
    Spec :=
      { sampleOrchestrator.Spec with
        OrchestratorConfig :=
          { SonataFlowPlatform :=
              { Resources :=
                  { Limits := { Cpu := "two cores", Memory := "4" }
                    Requests := { Cpu := "1", Memory := "1" } } } } } }

/-! ## Postconditions -/

/-- The postcondition of subscription convergence on an observed subscription
`existing`, for the desired subscription `desired` in the operator namespace
`ns`, where `s2` is the state after the existence checks and `r` the outcome
of the handler. -/
def SubscriptionConverged {σ : Type} (k : Env σ) (ns : String) (desired existing : Subscription)
    (s2 : σ) (r : Outcome σ) : Prop :=
  ((∃ c ∈ r.trace, c.isUpdate = true) ↔ existing.Spec ≠ desired.Spec) ∧
  (∀ c ∈ r.trace, c.isInstall = false) ∧
  (existing.Spec ≠ desired.Spec →
    ∃ sent : Subscription,
      sent.ObjectMeta = existing.ObjectMeta ∧ sent.Spec = desired.Spec ∧
      r.trace = [.CheckNamespaceExist ns, .CheckSubscriptionExists desired,
                 .Update (.subscription sent)] ∧
      r.err = (k.Update (.subscription sent) s2).1 ∧
      r.state = (k.Update (.subscription sent) s2).2) ∧
  (existing.Spec = desired.Spec →
    (∀ c ∈ r.trace, c.isMutating = false) ∧ r.err = none ∧ r.state = s2)

/-- The postcondition of the creation path of a custom-resource handler: after
a retrieval by `key` reported not-found in state `s1`, the outcome `r` holds
exactly one create call, no update call, and the created object is of kind
`kd` with the given identity and type metadata; the handler panics exactly
when the create call succeeds and `panics` holds (the log call that follows a
successful creation panics), and otherwise returns the answer of the create
call. -/
def CreatedOnce {σ : Type} (k : Env σ) (kd : ManagedKind) (key : NamespacedName)
    (name ns kind apiVersion : String) (panics : Bool) (s1 : σ) (r : Outcome σ) : Prop :=
  (r.trace.filter Call.isCreate).length = 1 ∧
  (r.trace.filter Call.isUpdate).length = 0 ∧
  ∃ o : Object,
    r.trace = [.Get kd key, .Create o] ∧
    o.kind = some kd ∧
    o.objectMeta.Name = name ∧ o.objectMeta.Namespace = ns ∧
    o.typeMeta.Kind = kind ∧ o.typeMeta.APIVersion = apiVersion ∧
    r.state = (k.Create o s1).2 ∧
    r.panicked = ((k.Create o s1).1.isNone && panics) ∧
    (r.panicked = false → r.err = (k.Create o s1).1)

/-- The platform object that `handleSonataFlowPlatformCR` hands to
`client.Create` for a parent configuration. -/
def platformObject {σ : Type} (k : Env σ) (orchestrator : Orchestrator) : SonataFlowPlatform :=
  { TypeMeta := { APIVersion := SonataFlowAPIVersion, Kind := SonataFlowPlatformKind }
    ObjectMeta :=
      { Name := SonataFlowPlatformCRName
        Namespace := SonataFlowNamespace
        Labels := k.AddLabel }
    Spec := getSonataFlowPlatformSpec k orchestrator }

/-- The postcondition of a teardown handler whose steps are `steps`, in order,
and answered `answers`, in order (the answer of a step being the one it gives
in the state left by the steps before it): the calls issued are the steps up
to and including the first one that fails, the handler returns the error of
that step, and nil exactly when every step answers nil; no call is a
`Delete`, and no namespace clean-up follows a subscription clean-up. -/
def TornDown {σ : Type} (steps : List Call) (answers : List GoError) (r : Outcome σ) : Prop :=
  r.trace = steps.take ((answers.takeWhile (fun e => e.isNone)).length + 1) ∧
  r.err = (answers.find? (fun e => e.isSome)).join ∧
  (r.err = none ↔ ∀ e ∈ answers, e = none) ∧
  (∀ c ∈ r.trace, c.isDelete = false) ∧
  (∀ c ∈ r.trace.dropWhile (fun c => !c.isCleanUpSubscriptionAndCSV),
    c.isCleanUpNamespace = false)

/-! ## Operator installation -/

/-- C1 (what the code does instead): in both operator-install handlers, when the
namespace check reports not-found and the namespace creation succeeds, the
handler issues the check and the creation and nothing else (no subscription
check, no install call) and returns the not-found error of the check, not
success. -/
theorem install_stops_after_namespace_creation {σ : Type} (k : Env σ) (s s1 s2 : σ) (e : Err)
    (hnf : IsNotFound e = true) :
    (k.CheckNamespaceExist KnativeSubscriptionNamespace s = (some e, s1) →
      k.CreateNamespace KnativeSubscriptionNamespace s1 = (none, s2) →
      (handleKNativeOperatorInstallation k s).err = some e ∧
      (handleKNativeOperatorInstallation k s).trace =
        [.CheckNamespaceExist KnativeSubscriptionNamespace,
         .CreateNamespace KnativeSubscriptionNamespace] ∧
      ∀ c ∈ (handleKNativeOperatorInstallation k s).trace, c.isInstall = false) ∧
    (k.CheckNamespaceExist ServerlessLogicOperatorNamespace s = (some e, s1) →
      k.CreateNamespace ServerlessLogicOperatorNamespace s1 = (none, s2) →
      (handleOSLOperatorInstallation k s).err = some e ∧
      (handleOSLOperatorInstallation k s).trace =
        [.CheckNamespaceExist ServerlessLogicOperatorNamespace,
         .CreateNamespace ServerlessLogicOperatorNamespace] ∧
      ∀ c ∈ (handleOSLOperatorInstallation k s).trace, c.isInstall = false) := by
  constructor
  · intro h1 h2
    simp [handleKNativeOperatorInstallation, h1, h2, hnf, Call.isInstall]
  · intro h1 h2
    simp [handleOSLOperatorInstallation, h1, h2, hnf, Call.isInstall]

/-- C1, on the empty cluster (namespace absent, creation succeeds, subscription
absent, install succeeds): both handlers return the not-found error after
creating the namespace and never install the subscription. -/
theorem install_stops_after_namespace_creation_witness :
    (fakeEnv.CheckSubscriptionExists (serverlessSubscription fakeEnv)
        (fakeEnv.CreateNamespace KnativeSubscriptionNamespace emptyCluster).2).1.1 = false ∧
    (fakeEnv.InstallOperatorViaSubscription fakeEnv.ServerlessOperatorGroupName
        (serverlessSubscription fakeEnv)
        (fakeEnv.CreateNamespace KnativeSubscriptionNamespace emptyCluster).2).1 = none ∧
    (handleKNativeOperatorInstallation fakeEnv emptyCluster).err = some .NotFound ∧
    (handleKNativeOperatorInstallation fakeEnv emptyCluster).trace =
      [.CheckNamespaceExist KnativeSubscriptionNamespace,
       .CreateNamespace KnativeSubscriptionNamespace] ∧
    (handleOSLOperatorInstallation fakeEnv emptyCluster).err = some .NotFound ∧
    (handleOSLOperatorInstallation fakeEnv emptyCluster).trace =
      [.CheckNamespaceExist ServerlessLogicOperatorNamespace,
       .CreateNamespace ServerlessLogicOperatorNamespace] :=
  have h := install_stops_after_namespace_creation fakeEnv emptyCluster emptyCluster
    { emptyCluster with namespaces := [KnativeSubscriptionNamespace] } .NotFound rfl
  have h2 := install_stops_after_namespace_creation fakeEnv emptyCluster emptyCluster
    { emptyCluster with namespaces := [ServerlessLogicOperatorNamespace] } .NotFound rfl
  ⟨by decide, by decide, (h.1 rfl rfl).1, (h.1 rfl rfl).2.1, (h2.2 rfl rfl).1, (h2.2 rfl rfl).2.1⟩

/-- C2 (what the code does instead): in both operator-install handlers, when the
namespace check reports not-found and the namespace creation fails, the
handler returns nil: the creation error is dropped. -/
theorem install_swallows_namespace_creation_error {σ : Type} (k : Env σ) (s s1 s2 : σ)
    (e e2 : Err) (hnf : IsNotFound e = true) :
    (k.CheckNamespaceExist KnativeSubscriptionNamespace s = (some e, s1) →
      k.CreateNamespace KnativeSubscriptionNamespace s1 = (some e2, s2) →
      (handleKNativeOperatorInstallation k s).err = none) ∧
    (k.CheckNamespaceExist ServerlessLogicOperatorNamespace s = (some e, s1) →
      k.CreateNamespace ServerlessLogicOperatorNamespace s1 = (some e2, s2) →
      (handleOSLOperatorInstallation k s).err = none) := by
  constructor
  · intro h1 h2
    simp [handleKNativeOperatorInstallation, h1, h2, hnf]
  · intro h1 h2
    simp [handleOSLOperatorInstallation, h1, h2, hnf]

/-- C2, on a cluster without namespaces that rejects namespace creation: both
handlers return nil. -/
theorem install_swallows_namespace_creation_error_witness :
    fakeEnv.CheckNamespaceExist KnativeSubscriptionNamespace forbiddenCluster
      = (some .NotFound, forbiddenCluster) ∧
    fakeEnv.CreateNamespace KnativeSubscriptionNamespace forbiddenCluster
      = (some (.Other "forbidden"), forbiddenCluster) ∧
    (handleKNativeOperatorInstallation fakeEnv forbiddenCluster).err = none ∧
    (handleOSLOperatorInstallation fakeEnv forbiddenCluster).err = none :=
  have h := install_swallows_namespace_creation_error fakeEnv forbiddenCluster forbiddenCluster
    forbiddenCluster .NotFound (.Other "forbidden") rfl
  ⟨rfl, rfl, h.1 rfl rfl, h.2 rfl rfl⟩

/-- C3: in both operator-install handlers, when the namespace exists and the
subscription is observed to exist, an update call is issued if and only if the
observed specification differs from the desired one; the object sent is the
observed object with its specification replaced by the desired one (metadata,
hence the version token, unchanged), no install call is issued, the answer of
the update is the answer of the handler, and with equal specifications the
handler issues no mutating call and returns nil.  The desired channel of the
Knative subscription is `stable`. -/
theorem subscription_update_iff_spec_differs {σ : Type} (k : Env σ) (s s1 s2 : σ)
    (existing : Subscription) :
    (k.CheckNamespaceExist KnativeSubscriptionNamespace s = (none, s1) →
      k.CheckSubscriptionExists (serverlessSubscription k) s1 = ((true, existing, none), s2) →
      SubscriptionConverged k KnativeSubscriptionNamespace (serverlessSubscription k) existing s2
        (handleKNativeOperatorInstallation k s)) ∧
    (k.CheckNamespaceExist ServerlessLogicOperatorNamespace s = (none, s1) →
      k.CheckSubscriptionExists (oslSubscription k) s1 = ((true, existing, none), s2) →
      SubscriptionConverged k ServerlessLogicOperatorNamespace (oslSubscription k) existing s2
        (handleOSLOperatorInstallation k s)) ∧
    (serverlessSubscription k).Spec.Channel = "stable" := by
  refine ⟨fun h1 h2 => ?_, fun h1 h2 => ?_, rfl⟩
  · by_cases hd : existing.Spec = (serverlessSubscription k).Spec
    · simp [SubscriptionConverged, handleKNativeOperatorInstallation, h1, h2, hd,
        Call.isUpdate, Call.isInstall, Call.isMutating]
    · refine ⟨?_, ?_, ?_, fun h => absurd h hd⟩
      · simp only [handleKNativeOperatorInstallation, h1, h2, ne_eq, hd, not_false_eq_true,
          if_true, iff_true]
        cases hu : k.Update
          (.subscription { existing with Spec := (serverlessSubscription k).Spec }) s2 with
        | mk eu su => cases eu <;> simp [Call.isUpdate]
      · simp only [handleKNativeOperatorInstallation, h1, h2, ne_eq, hd, not_false_eq_true,
          if_true]
        cases hu : k.Update
          (.subscription { existing with Spec := (serverlessSubscription k).Spec }) s2 with
        | mk eu su => cases eu <;> simp [Call.isInstall]
      · intro _
        refine ⟨{ existing with Spec := (serverlessSubscription k).Spec }, rfl, rfl, ?_⟩
        simp only [handleKNativeOperatorInstallation, h1, h2, ne_eq, hd, not_false_eq_true,
          if_true]
        cases hu : k.Update
          (.subscription { existing with Spec := (serverlessSubscription k).Spec }) s2 with
        | mk eu su => cases eu <;> simp
  · by_cases hd : existing.Spec = (oslSubscription k).Spec
    · simp [SubscriptionConverged, handleOSLOperatorInstallation, h1, h2, hd,
        Call.isUpdate, Call.isInstall, Call.isMutating]
    · refine ⟨?_, ?_, ?_, fun h => absurd h hd⟩
      · simp only [handleOSLOperatorInstallation, h1, h2, ne_eq, hd, not_false_eq_true,
          if_true, iff_true]
        cases hu : k.Update
          (.subscription { existing with Spec := (oslSubscription k).Spec }) s2 with
        | mk eu su => cases eu <;> simp [Call.isUpdate]
      · simp only [handleOSLOperatorInstallation, h1, h2, ne_eq, hd, not_false_eq_true,
          if_true]
        cases hu : k.Update
          (.subscription { existing with Spec := (oslSubscription k).Spec }) s2 with
        | mk eu su => cases eu <;> simp [Call.isInstall]
      · intro _
        refine ⟨{ existing with Spec := (oslSubscription k).Spec }, rfl, rfl, ?_⟩
        simp only [handleOSLOperatorInstallation, h1, h2, ne_eq, hd, not_false_eq_true,
          if_true]
        cases hu : k.Update
          (.subscription { existing with Spec := (oslSubscription k).Spec }) s2 with
        | mk eu su => cases eu <;> simp

/-- C3, on a cluster where the Knative subscription is observed on channel
`alpha` (desired: `stable`) and the serverless-logic subscription is observed
with the desired specification: the Knative handler issues exactly one update,
carrying channel `stable` and the observed version token; the serverless-logic
handler issues no mutating call. -/
theorem subscription_update_iff_spec_differs_witness :
    alphaSubscription.Spec.Channel = "alpha" ∧
    SubscriptionConverged fakeEnv KnativeSubscriptionNamespace (serverlessSubscription fakeEnv)
      alphaSubscription driftedCluster (handleKNativeOperatorInstallation fakeEnv driftedCluster) ∧
    SubscriptionConverged fakeEnv ServerlessLogicOperatorNamespace (oslSubscription fakeEnv)
      settledSubscription driftedCluster (handleOSLOperatorInstallation fakeEnv driftedCluster) ∧
    (handleKNativeOperatorInstallation fakeEnv driftedCluster).trace.filter Call.isUpdate =
      [.Update (.subscription
        { alphaSubscription with Spec := { alphaSubscription.Spec with Channel := "stable" } })] ∧
    (handleKNativeOperatorInstallation fakeEnv driftedCluster).err = none ∧
    (handleOSLOperatorInstallation fakeEnv driftedCluster).trace.filter Call.isMutating = [] :=
  ⟨rfl,
   (subscription_update_iff_spec_differs fakeEnv driftedCluster driftedCluster driftedCluster
      alphaSubscription).1 rfl rfl,
   (subscription_update_iff_spec_differs fakeEnv driftedCluster driftedCluster driftedCluster
      settledSubscription).2.1 rfl rfl,
   by decide, by decide, by decide⟩

/-! ## Custom resources: creation -/

/-- C4 (what the code does instead): for each of the four custom-resource
handlers, when the retrieval reports not-found the handler issues exactly one
create call and no update call, and the created object carries the fixed
name, namespace, kind and API version of its managed kind.  The two Knative
handlers and `handleSonataFlowPlatformCR` then return the answer of the
create call.  `handleSonataFlowClusterCR` returns the error of a failed
create call, but after a successful one it makes a log call with a single
key/value argument: where the logger panics on an odd number of them the
handler panics instead of returning nil. -/
theorem absent_resource_created_then_logged {σ : Type} (k : Env σ)
    (orchestrator : Orchestrator) (crName : String) (s s1 : σ) (e : Err)
    (hnf : IsNotFound e = true) :
    (k.GetKnativeEventing
        { Name := KnativeEventingNamespacedName, Namespace := KnativeEventingNamespacedName } s
        = (.error e, s1) →
      CreatedOnce k .knativeEventing
        { Name := KnativeEventingNamespacedName, Namespace := KnativeEventingNamespacedName }
        KnativeEventingNamespacedName KnativeEventingNamespacedName
        KnativeEventingKind KnativeAPIVersion false s1 (handleKnativeEventingCR k s)) ∧
    (k.GetKnativeServing
        { Name := KnativeServingNamespacedName, Namespace := KnativeServingNamespacedName } s
        = (.error e, s1) →
      CreatedOnce k .knativeServing
        { Name := KnativeServingNamespacedName, Namespace := KnativeServingNamespacedName }
        KnativeServingNamespacedName KnativeServingNamespacedName
        KnativeServingKind KnativeAPIVersion false s1 (handleKnativeServingCR k s)) ∧
    (k.GetSonataFlowClusterPlatform { Name := crName, Namespace := SonataFlowNamespace } s
        = (.error e, s1) →
      CreatedOnce k .sonataFlowClusterPlatform
        { Name := crName, Namespace := SonataFlowNamespace }
        SonataFlowClusterPlatformCRName SonataFlowNamespace
        SonataFlowClusterPlatformKind SonataFlowAPIVersion k.LogPanicsOnOddKeyValues s1
        (handleSonataFlowClusterCR k crName s)) ∧
    (k.GetSonataFlowPlatform
        { Name := SonataFlowPlatformCRName, Namespace := SonataFlowNamespace } s
        = (.error e, s1) →
      CreatedOnce k .sonataFlowPlatform
        { Name := SonataFlowPlatformCRName, Namespace := SonataFlowNamespace }
        SonataFlowPlatformCRName SonataFlowNamespace
        SonataFlowPlatformKind SonataFlowAPIVersion false s1
        (handleSonataFlowPlatformCR k orchestrator crName s)) := by
  refine ⟨fun h => ?_, fun h => ?_, fun h => ?_, fun h => ?_⟩
  · simp [CreatedOnce, handleKnativeEventingCR, h, hnf, Call.isCreate, Call.isUpdate,
      Object.kind, Object.objectMeta, Object.typeMeta]
  · simp [CreatedOnce, handleKnativeServingCR, h, hnf, Call.isCreate, Call.isUpdate,
      Object.kind, Object.objectMeta, Object.typeMeta]
  · simp only [CreatedOnce, handleSonataFlowClusterCR, h, hnf, if_true]
    split <;> rename_i hc <;>
      simp [hc, logPanics, Call.isCreate, Call.isUpdate, Object.kind, Object.objectMeta,
        Object.typeMeta]
  · simp only [CreatedOnce, handleSonataFlowPlatformCR, h, hnf, if_true]
    split <;> rename_i hc <;>
      simp [hc, Call.isCreate, Call.isUpdate, Object.kind, Object.objectMeta, Object.typeMeta]

/-- C4, on the empty cluster with a logger in development mode: the create
call of `handleSonataFlowClusterCR` succeeds and the handler panics; the same
handler returns nil under a logger that does not panic, and the platform
handler returns the creation error on a cluster that rejects creation. -/
theorem absent_resource_created_then_logged_witness :
    (devEnv.Create (.sonataFlowClusterPlatform
        { TypeMeta :=
            { APIVersion := SonataFlowAPIVersion, Kind := SonataFlowClusterPlatformKind }
          ObjectMeta :=
            { Name := SonataFlowClusterPlatformCRName, Namespace := SonataFlowNamespace
              Labels := devEnv.AddLabel }
          Spec := getSonataFlowClusterSpec }) emptyCluster).1 = none ∧
    CreatedOnce devEnv .sonataFlowClusterPlatform
      { Name := SonataFlowClusterPlatformCRName, Namespace := SonataFlowNamespace }
      SonataFlowClusterPlatformCRName SonataFlowNamespace
      SonataFlowClusterPlatformKind SonataFlowAPIVersion true emptyCluster
      (handleSonataFlowClusterCR devEnv SonataFlowClusterPlatformCRName emptyCluster) ∧
    (handleSonataFlowClusterCR devEnv SonataFlowClusterPlatformCRName emptyCluster).panicked
      = true ∧
    (handleServerlessLogicCR devEnv sampleOrchestrator emptyCluster).panicked = true ∧
    (handleSonataFlowClusterCR fakeEnv SonataFlowClusterPlatformCRName emptyCluster).panicked
      = false ∧
    (handleSonataFlowClusterCR fakeEnv SonataFlowClusterPlatformCRName emptyCluster).err = none ∧
    CreatedOnce fakeEnv .sonataFlowPlatform
      { Name := SonataFlowPlatformCRName, Namespace := SonataFlowNamespace }
      SonataFlowPlatformCRName SonataFlowNamespace
      SonataFlowPlatformKind SonataFlowAPIVersion false readOnlyCluster
      (handleSonataFlowPlatformCR fakeEnv sampleOrchestrator SonataFlowClusterPlatformCRName
        readOnlyCluster) ∧
    (handleSonataFlowPlatformCR fakeEnv sampleOrchestrator SonataFlowClusterPlatformCRName
        readOnlyCluster).err = some (.Other "forbidden") :=
  ⟨rfl,
   (absent_resource_created_then_logged devEnv sampleOrchestrator
      SonataFlowClusterPlatformCRName emptyCluster emptyCluster .NotFound rfl).2.2.1 rfl,
   by decide, by decide, by decide, by decide,
   (absent_resource_created_then_logged fakeEnv sampleOrchestrator
      SonataFlowClusterPlatformCRName readOnlyCluster readOnlyCluster .NotFound rfl).2.2.2 rfl,
   by decide⟩

/-! ## Custom resources: the present path -/

/-- C5 (what the code does instead): when the resource is present, the two
Knative handlers issue no call besides the retrieval, whatever the observed
specification; the cluster-platform handler always issues one update, of the
observed object with the desired specification; the platform handler always
issues one update, of the observed object as it is.  None of them compares
specifications. -/
theorem present_resource_update_is_not_gated {σ : Type} (k : Env σ)
    (orchestrator : Orchestrator) (crName : String) (s s1 : σ) :
    (∀ obs, k.GetKnativeEventing
        { Name := KnativeEventingNamespacedName, Namespace := KnativeEventingNamespacedName } s
        = (.ok obs, s1) →
      (handleKnativeEventingCR k s).err = none ∧
      (handleKnativeEventingCR k s).trace =
        [.Get .knativeEventing
          { Name := KnativeEventingNamespacedName
            Namespace := KnativeEventingNamespacedName }]) ∧
    (∀ obs, k.GetKnativeServing
        { Name := KnativeServingNamespacedName, Namespace := KnativeServingNamespacedName } s
        = (.ok obs, s1) →
      (handleKnativeServingCR k s).err = none ∧
      (handleKnativeServingCR k s).trace =
        [.Get .knativeServing
          { Name := KnativeServingNamespacedName
            Namespace := KnativeServingNamespacedName }]) ∧
    (∀ obs, k.GetSonataFlowClusterPlatform { Name := crName, Namespace := SonataFlowNamespace } s
        = (.ok obs, s1) →
      (handleSonataFlowClusterCR k crName s).trace =
        [.Get .sonataFlowClusterPlatform { Name := crName, Namespace := SonataFlowNamespace },
         .Update (.sonataFlowClusterPlatform { obs with Spec := getSonataFlowClusterSpec })]) ∧
    (∀ obs, k.GetSonataFlowPlatform
        { Name := SonataFlowPlatformCRName, Namespace := SonataFlowNamespace } s
        = (.ok obs, s1) →
      (handleSonataFlowPlatformCR k orchestrator crName s).trace =
        [.Get .sonataFlowPlatform
          { Name := SonataFlowPlatformCRName, Namespace := SonataFlowNamespace },
         .Update (.sonataFlowPlatform obs)]) := by
  refine ⟨fun obs h => ?_, fun obs h => ?_, fun obs h => ?_, fun obs h => ?_⟩
  · simp [handleKnativeEventingCR, h]
  · simp [handleKnativeServingCR, h]
  · simp [handleSonataFlowClusterCR, h]
  · simp [handleSonataFlowPlatformCR, h]

/-- C5, on a cluster where every resource is present: the eventing resource is
observed with a specification other than the desired zero value and is not
updated; the cluster-platform and platform resources are observed with the
desired specification and are updated all the same; and a second pass of
`handleServerlessLogicCR`, right after a first pass on the empty cluster,
issues two update calls. -/
theorem present_resource_update_is_not_gated_witness :
    customisedEventing.Spec ≠ {} ∧
    (handleKnativeEventingCR fakeEnv settledCluster).trace.filter Call.isUpdate = [] ∧
    settledClusterPlatform.Spec = getSonataFlowClusterSpec ∧
    (handleSonataFlowClusterCR fakeEnv SonataFlowClusterPlatformCRName settledCluster).trace =
      [.Get .sonataFlowClusterPlatform
        { Name := SonataFlowClusterPlatformCRName, Namespace := SonataFlowNamespace },
       .Update (.sonataFlowClusterPlatform settledClusterPlatform)] ∧
    settledPlatform.Spec = getSonataFlowPlatformSpec fakeEnv sampleOrchestrator ∧
    (handleSonataFlowPlatformCR fakeEnv sampleOrchestrator SonataFlowClusterPlatformCRName
        settledCluster).trace =
      [.Get .sonataFlowPlatform
        { Name := SonataFlowPlatformCRName, Namespace := SonataFlowNamespace },
       .Update (.sonataFlowPlatform settledPlatform)] ∧
    ((handleServerlessLogicCR fakeEnv sampleOrchestrator
        (handleServerlessLogicCR fakeEnv sampleOrchestrator emptyCluster).state).trace.filter
      Call.isMutating).length = 2 :=
  have h := present_resource_update_is_not_gated fakeEnv sampleOrchestrator
    SonataFlowClusterPlatformCRName settledCluster settledCluster
  ⟨by decide, by rw [(h.1 customisedEventing rfl).2]; rfl, rfl,
   h.2.2.1 settledClusterPlatform rfl, rfl, h.2.2.2 settledPlatform rfl, by decide⟩

/-- C8 (what the code does instead): when the resource is present and the update
call fails, `handleSonataFlowClusterCR` and `handleSonataFlowPlatformCR` both
return nil, without panicking (in fact they return nil whatever the update
answers). -/
theorem custom_resource_update_error_is_swallowed {σ : Type} (k : Env σ)
    (orchestrator : Orchestrator) (crName : String) (s s1 s2 : σ) (e : Err) :
    (∀ obs, k.GetSonataFlowClusterPlatform { Name := crName, Namespace := SonataFlowNamespace } s
        = (.ok obs, s1) →
      k.Update (.sonataFlowClusterPlatform { obs with Spec := getSonataFlowClusterSpec }) s1
        = (some e, s2) →
      (handleSonataFlowClusterCR k crName s).err = none ∧
      .Update (.sonataFlowClusterPlatform { obs with Spec := getSonataFlowClusterSpec })
        ∈ (handleSonataFlowClusterCR k crName s).trace ∧
      (handleSonataFlowClusterCR k crName s).panicked = false) ∧
    (∀ obs, k.GetSonataFlowPlatform
        { Name := SonataFlowPlatformCRName, Namespace := SonataFlowNamespace } s
        = (.ok obs, s1) →
      k.Update (.sonataFlowPlatform obs) s1 = (some e, s2) →
      (handleSonataFlowPlatformCR k orchestrator crName s).err = none ∧
      .Update (.sonataFlowPlatform obs)
        ∈ (handleSonataFlowPlatformCR k orchestrator crName s).trace ∧
      (handleSonataFlowPlatformCR k orchestrator crName s).panicked = false) := by
  refine ⟨fun obs h hu => ?_, fun obs h hu => ?_⟩
  · simp [handleSonataFlowClusterCR, h]
  · simp [handleSonataFlowPlatformCR, h]

/-- C8, on a cluster where both SonataFlow resources are present and every
update is rejected with a conflict: both handlers, and the whole pass
`handleServerlessLogicCR`, return nil. -/
theorem custom_resource_update_error_is_swallowed_witness :
    fakeEnv.Update (.sonataFlowClusterPlatform settledClusterPlatform) conflictingCluster
      = (some .Conflict, conflictingCluster) ∧
    (handleSonataFlowClusterCR fakeEnv SonataFlowClusterPlatformCRName conflictingCluster).err
      = none ∧
    (handleSonataFlowPlatformCR fakeEnv sampleOrchestrator SonataFlowClusterPlatformCRName
        conflictingCluster).err = none ∧
    (handleServerlessLogicCR fakeEnv sampleOrchestrator conflictingCluster).err = none :=
  have h := custom_resource_update_error_is_swallowed fakeEnv sampleOrchestrator
    SonataFlowClusterPlatformCRName conflictingCluster conflictingCluster conflictingCluster
    .Conflict
  ⟨rfl, (h.1 settledClusterPlatform rfl rfl).1, (h.2 settledPlatform rfl rfl).1, by decide⟩

/-- C9 (what the code does instead): when the cluster-platform resource is
present with the desired specification and the platform resource is absent,
`handleServerlessLogicCR` first updates the cluster-platform resource (with
the object it observed), then creates the platform resource, and returns the
answer of that create call, without panicking. -/
theorem logic_pass_updates_settled_cluster_platform {σ : Type} (k : Env σ)
    (orchestrator : Orchestrator) (s s1 s2 s3 : σ) (obs : SonataFlowClusterPlatform)
    (eu : GoError) (e : Err)
    (hget : k.GetSonataFlowClusterPlatform
      { Name := SonataFlowClusterPlatformCRName, Namespace := SonataFlowNamespace } s
      = (.ok obs, s1))
    (hspec : obs.Spec = getSonataFlowClusterSpec)
    (hupd : k.Update (.sonataFlowClusterPlatform obs) s1 = (eu, s2))
    (habsent : k.GetSonataFlowPlatform
      { Name := SonataFlowPlatformCRName, Namespace := SonataFlowNamespace } s2
      = (.error e, s3))
    (hnf : IsNotFound e = true) :
    (handleServerlessLogicCR k orchestrator s).trace =
      [.Get .sonataFlowClusterPlatform
        { Name := SonataFlowClusterPlatformCRName, Namespace := SonataFlowNamespace },
       .Update (.sonataFlowClusterPlatform obs),
       .Get .sonataFlowPlatform
        { Name := SonataFlowPlatformCRName, Namespace := SonataFlowNamespace },
       .Create (.sonataFlowPlatform (platformObject k orchestrator))] ∧
    (handleServerlessLogicCR k orchestrator s).err
      = (k.Create (.sonataFlowPlatform (platformObject k orchestrator)) s3).1 ∧
    (handleServerlessLogicCR k orchestrator s).panicked = false := by
  have hobs : { obs with Spec := getSonataFlowClusterSpec } = obs := by
    cases obs; simp_all
  rcases hcr : k.Create (.sonataFlowPlatform (platformObject k orchestrator)) s3 with ⟨ec, sc⟩
  simp only [platformObject] at hcr
  cases ec <;>
    simp [handleServerlessLogicCR, handleSonataFlowClusterCR, hget, hobs, hupd,
      handleSonataFlowPlatformCR, habsent, hnf, platformObject, hcr]

/-- C9, on a cluster where the cluster-platform resource is present with the
desired specification and the platform resource is absent: the pass issues
two mutating calls, the first an update of the cluster-platform resource, and
returns nil. -/
theorem logic_pass_updates_settled_cluster_platform_witness :
    (handleServerlessLogicCR fakeEnv sampleOrchestrator halfSettledCluster).trace =
      [.Get .sonataFlowClusterPlatform
        { Name := SonataFlowClusterPlatformCRName, Namespace := SonataFlowNamespace },
       .Update (.sonataFlowClusterPlatform settledClusterPlatform),
       .Get .sonataFlowPlatform
        { Name := SonataFlowPlatformCRName, Namespace := SonataFlowNamespace },
       .Create (.sonataFlowPlatform (platformObject fakeEnv sampleOrchestrator))] ∧
    ((handleServerlessLogicCR fakeEnv sampleOrchestrator halfSettledCluster).trace.filter
      Call.isMutating).length = 2 ∧
    (handleServerlessLogicCR fakeEnv sampleOrchestrator halfSettledCluster).err = none :=
  ⟨(logic_pass_updates_settled_cluster_platform fakeEnv sampleOrchestrator halfSettledCluster
      halfSettledCluster halfSettledCluster halfSettledCluster settledClusterPlatform none
      .NotFound rfl rfl rfl rfl rfl).1,
   by decide, by decide⟩

/-! ## The CRD readiness gate of `handleServerlessCR` -/

/-- Every call of `handleKnativeEventingCR` is a call on the eventing kind. -/
theorem handleKnativeEventingCR_calls {σ : Type} (k : Env σ) (s : σ) :
    ∀ c ∈ (handleKnativeEventingCR k s).trace,
      c.onKind .knativeEventing = true ∧ c.onKind .knativeServing = false := by
  intro c hc
  simp only [handleKnativeEventingCR] at hc
  split at hc
  · simp at hc; subst hc; simp [Call.onKind]
  · split at hc
    · simp at hc
      rcases hc with hc | hc <;> subst hc <;> simp [Call.onKind, Object.kind]
    · simp at hc; subst hc; simp [Call.onKind]

/-- Every call of `handleKnativeServingCR` is a call on the serving kind. -/
theorem handleKnativeServingCR_calls {σ : Type} (k : Env σ) (s : σ) :
    ∀ c ∈ (handleKnativeServingCR k s).trace,
      c.onKind .knativeServing = true ∧ c.onKind .knativeEventing = false := by
  intro c hc
  simp only [handleKnativeServingCR] at hc
  split at hc
  · simp at hc; subst hc; simp [Call.onKind]
  · split at hc
    · simp at hc
      rcases hc with hc | hc <;> subst hc <;> simp [Call.onKind, Object.kind]
    · simp at hc; subst hc; simp [Call.onKind]

/-- The trace of `handleServerlessCR`, step by step: the eventing CRD check,
then (if it answered nil) the eventing handler, then (if that returned nil)
the serving CRD check, then (if it answered nil) the serving handler. -/
theorem handleServerlessCR_trace {σ : Type} (k : Env σ) (s : σ) :
    (handleServerlessCR k s).trace =
      .CheckCRDExists KnativeEventingCRDName KnativeSubscriptionNamespace ::
        (if (k.CheckCRDExists KnativeEventingCRDName KnativeSubscriptionNamespace s).1.isSome
         then []
         else
          (handleKnativeEventingCR k
            (k.CheckCRDExists KnativeEventingCRDName KnativeSubscriptionNamespace s).2).trace ++
          (if (handleKnativeEventingCR k
                (k.CheckCRDExists KnativeEventingCRDName KnativeSubscriptionNamespace s).2
              ).err.isSome
           then []
           else
            .CheckCRDExists KnativeServingCRDName KnativeSubscriptionNamespace ::
              (if (k.CheckCRDExists KnativeServingCRDName KnativeSubscriptionNamespace
                    (handleKnativeEventingCR k
                      (k.CheckCRDExists KnativeEventingCRDName KnativeSubscriptionNamespace s).2
                    ).state).1.isSome
               then []
               else
                (handleKnativeServingCR k
                  (k.CheckCRDExists KnativeServingCRDName KnativeSubscriptionNamespace
                    (handleKnativeEventingCR k
                      (k.CheckCRDExists KnativeEventingCRDName KnativeSubscriptionNamespace s).2
                    ).state).2).trace))) := by
  rcases h1 : k.CheckCRDExists KnativeEventingCRDName KnativeSubscriptionNamespace s
    with ⟨e1, s1⟩
  cases e1 with
  | some e => simp [handleServerlessCR, h1]
  | none =>
    cases hr1 : (handleKnativeEventingCR k s1).err with
    | some e => simp [handleServerlessCR, h1, hr1]
    | none =>
      rcases h2 : k.CheckCRDExists KnativeServingCRDName KnativeSubscriptionNamespace
        (handleKnativeEventingCR k s1).state with ⟨e2, s2⟩
      cases e2 with
      | some e =>
        by_cases hnf : IsNotFound e = true <;> simp [handleServerlessCR, h1, hr1, h2, hnf]
      | none =>
        cases hr2 : (handleKnativeServingCR k s2).err <;>
          simp [handleServerlessCR, h1, hr1, h2, hr2]

/-- If a list splits at an element satisfying `P` and starts with a block free
of `P`, the block lies before the split. -/
theorem block_before_split {α : Type} (P : α → Prop) :
    ∀ (l1 l2 pre : List α) (c : α) (post : List α),
      l1 ++ l2 = pre ++ c :: post → (∀ x ∈ l1, ¬ P x) → P c → ∃ t, pre = l1 ++ t := by
  intro l1
  induction l1 with
  | nil => intro l2 pre c post _ _ _; exact ⟨pre, rfl⟩
  | cons a l1 ih =>
    intro l2 pre c post h hfree hc
    cases pre with
    | nil =>
      simp at h
      exact absurd (h.1 ▸ hc) (hfree a (by simp))
    | cons b pre =>
      simp at h
      obtain ⟨t, ht⟩ := ih l2 pre c post h.2 (fun x hx => hfree x (by simp [hx])) hc
      exact ⟨t, by simp [h.1, ht]⟩

/-- C6 (what the code does instead): in `handleServerlessCR`, a not-found answer
of the eventing CRD check is returned as the error of the handler, whereas a
not-found answer of the serving CRD check makes the handler return nil. -/
theorem eventing_crd_not_found_is_returned {σ : Type} (k : Env σ) (s s1 s2 : σ) (e : Err)
    (hnf : IsNotFound e = true) :
    (k.CheckCRDExists KnativeEventingCRDName KnativeSubscriptionNamespace s = (some e, s1) →
      (handleServerlessCR k s).err = some e) ∧
    (k.CheckCRDExists KnativeEventingCRDName KnativeSubscriptionNamespace s = (none, s1) →
      (handleKnativeEventingCR k s1).err = none →
      k.CheckCRDExists KnativeServingCRDName KnativeSubscriptionNamespace
        (handleKnativeEventingCR k s1).state = (some e, s2) →
      (handleServerlessCR k s).err = none) := by
  constructor
  · intro h1
    simp [handleServerlessCR, h1]
  · intro h1 hr1 h2
    simp [handleServerlessCR, h1, hr1, h2, hnf]

/-- C6, on a cluster without any CRD, the handler returns the not-found error
of the eventing CRD check; on a cluster with the eventing CRD only, it returns
nil. -/
theorem eventing_crd_not_found_is_returned_witness :
    fakeEnv.CheckCRDExists KnativeEventingCRDName KnativeSubscriptionNamespace emptyCluster
      = (some .NotFound, emptyCluster) ∧
    (handleServerlessCR fakeEnv emptyCluster).err = some .NotFound ∧
    (handleServerlessCR fakeEnv eventingOnlyCluster).err = none :=
  have h := eventing_crd_not_found_is_returned fakeEnv emptyCluster emptyCluster emptyCluster
    .NotFound rfl
  have h2 := eventing_crd_not_found_is_returned fakeEnv eventingOnlyCluster eventingOnlyCluster
    (handleKnativeEventingCR fakeEnv eventingOnlyCluster).state .NotFound rfl
  ⟨rfl, h.1 rfl, h2.2 rfl rfl rfl⟩

/-- C7: in `handleServerlessCR`, where `e1` is the answer of the eventing CRD
check and `e2` the answer of the serving CRD check: if `e1` is an error the
handler issues the eventing CRD check and no other call, so no custom-resource
call at all; a call on the eventing kind is only issued when `e1` is nil; a
call on the serving kind is only issued when `e1` is nil, the eventing handler
returned nil and `e2` is nil; every custom-resource call comes after the
eventing CRD check, and every call on the serving kind after the serving CRD
check. -/
theorem custom_resource_calls_follow_crd_checks {σ : Type} (k : Env σ) (s s1 s2 : σ)
    (e1 e2 : GoError)
    (h1 : k.CheckCRDExists KnativeEventingCRDName KnativeSubscriptionNamespace s = (e1, s1))
    (h2 : k.CheckCRDExists KnativeServingCRDName KnativeSubscriptionNamespace
      (handleKnativeEventingCR k s1).state = (e2, s2)) :
    (e1 ≠ none →
      (handleServerlessCR k s).trace =
        [.CheckCRDExists KnativeEventingCRDName KnativeSubscriptionNamespace] ∧
      ∀ c ∈ (handleServerlessCR k s).trace, c.isCustomResourceCall = false) ∧
    (∀ c ∈ (handleServerlessCR k s).trace, c.onKind .knativeEventing = true → e1 = none) ∧
    (∀ c ∈ (handleServerlessCR k s).trace, c.onKind .knativeServing = true →
      e1 = none ∧ (handleKnativeEventingCR k s1).err = none ∧ e2 = none) ∧
    (∀ pre c post, (handleServerlessCR k s).trace = pre ++ c :: post →
      c.isCustomResourceCall = true →
      .CheckCRDExists KnativeEventingCRDName KnativeSubscriptionNamespace ∈ pre) ∧
    (∀ pre c post, (handleServerlessCR k s).trace = pre ++ c :: post →
      c.onKind .knativeServing = true →
      .CheckCRDExists KnativeServingCRDName KnativeSubscriptionNamespace ∈ pre) := by
  have ht := handleServerlessCR_trace k s
  simp only [h1, h2] at ht
  have hev := handleKnativeEventingCR_calls k s1
  have hsv := handleKnativeServingCR_calls k s2
  have f2 : e1 ≠ none → (handleServerlessCR k s).trace =
      [.CheckCRDExists KnativeEventingCRDName KnativeSubscriptionNamespace] := by
    intro hne
    cases e1 with
    | none => exact absurd rfl hne
    | some e => simpa using ht
  have f3 : ∀ c ∈ (handleServerlessCR k s).trace, c.onKind .knativeServing = true →
      e1 = none ∧ (handleKnativeEventingCR k s1).err = none ∧ e2 = none := by
    intro c hc hk
    rw [ht] at hc
    cases e1 with
    | some e => simp at hc; subst hc; simp [Call.onKind] at hk
    | none =>
      cases hr1 : (handleKnativeEventingCR k s1).err with
      | some e =>
        simp [hr1] at hc
        rcases hc with hc | hc
        · subst hc; simp [Call.onKind] at hk
        · simp [(hev c hc).2] at hk
      | none =>
        cases e2 with
        | some e =>
          simp [hr1] at hc
          rcases hc with hc | hc | hc
          · subst hc; simp [Call.onKind] at hk
          · simp [(hev c hc).2] at hk
          · subst hc; simp [Call.onKind] at hk
        | none => simp
  have f5 : ∀ c ∈ (handleServerlessCR k s).trace, c.onKind .knativeEventing = true →
      e1 = none := by
    intro c hc hk
    cases e1 with
    | none => rfl
    | some e =>
      rw [f2 (by simp)] at hc
      simp at hc; subst hc; simp [Call.onKind] at hk
  refine ⟨fun hne => ⟨f2 hne, ?_⟩, f5, f3, ?_, ?_⟩
  · intro c hc
    rw [f2 hne] at hc
    simp at hc; subst hc; rfl
  · intro pre c post hsplit hk
    rw [ht] at hsplit
    obtain ⟨t, rfl⟩ := block_before_split (fun c => c.isCustomResourceCall = true)
      [.CheckCRDExists KnativeEventingCRDName KnativeSubscriptionNamespace] _ pre c post
      (by simpa using hsplit) (by simp [Call.isCustomResourceCall]) hk
    simp
  · intro pre c post hsplit hk
    have hc : c ∈ (handleServerlessCR k s).trace := by rw [hsplit]; simp
    obtain ⟨he1, hr1, he2⟩ := f3 c hc hk
    subst he1 he2
    rw [ht] at hsplit
    simp only [Option.isSome_none, hr1, Bool.false_eq_true, if_false] at hsplit
    obtain ⟨t, rfl⟩ := block_before_split (fun c => c.onKind .knativeServing = true)
      (.CheckCRDExists KnativeEventingCRDName KnativeSubscriptionNamespace ::
        (handleKnativeEventingCR k s1).trace ++
        [.CheckCRDExists KnativeServingCRDName KnativeSubscriptionNamespace])
      (handleKnativeServingCR k s2).trace pre c post
      (by simpa using hsplit)
      (by
        intro x hx
        simp at hx
        rcases hx with hx | hx | hx
        · subst hx; simp [Call.onKind]
        · simp [(hev x hx).2]
        · subst hx; simp [Call.onKind])
      hk
    simp

/-- C7, on a cluster without any CRD the handler issues the eventing CRD check
only; on a cluster with both CRDs and no custom resource it issues calls on
both kinds, each after the check of its CRD. -/
theorem custom_resource_calls_follow_crd_checks_witness :
    (handleServerlessCR fakeEnv emptyCluster).trace =
      [.CheckCRDExists KnativeEventingCRDName KnativeSubscriptionNamespace] ∧
    (∀ c ∈ (handleServerlessCR fakeEnv readyCluster).trace,
      c.onKind .knativeServing = true →
      (none : GoError) = none ∧
      (handleKnativeEventingCR fakeEnv readyCluster).err = none ∧ (none : GoError) = none) ∧
    ((handleServerlessCR fakeEnv readyCluster).trace.filter Call.isCustomResourceCall).length
      = 4 ∧
    ((handleServerlessCR fakeEnv readyCluster).trace.map (Call.onKind .knativeServing))
      = [false, false, false, false, true, true] :=
  ⟨((custom_resource_calls_follow_crd_checks fakeEnv emptyCluster emptyCluster
      (handleKnativeEventingCR fakeEnv emptyCluster).state
      (some .NotFound) (some .NotFound) rfl rfl).1 (by simp)).1,
   (custom_resource_calls_follow_crd_checks fakeEnv readyCluster readyCluster
      (handleKnativeEventingCR fakeEnv readyCluster).state none none rfl rfl).2.2.1,
   by decide, by decide⟩

/-! ## Teardown -/

/-- C10: both teardown handlers run their steps in order (the namespace
clean-ups, then the clean-up of the subscription and its install record),
stop at the first step that fails and return its error, return nil exactly
when every step succeeds, and never issue a delete call (so no CRD is
deleted). -/
theorem teardown_stops_at_first_failure {σ : Type} (k : Env σ) (s s1 s2 s3 t1 t2 : σ)
    (e1 e2 e3 d1 d2 : GoError)
    (h1 : k.CleanUpNamespace KnativeEventingNamespacedName s = (e1, s1))
    (h2 : k.CleanUpNamespace KnativeServingNamespacedName s1 = (e2, s2))
    (h3 : k.CleanUpSubscriptionAndCSV (serverlessSubscription k) s2 = (e3, s3))
    (g1 : k.CleanUpNamespace SonataFlowNamespace s = (d1, t1))
    (g2 : k.CleanUpSubscriptionAndCSV (oslSubscription k) t1 = (d2, t2)) :
    TornDown
      [.CleanUpNamespace KnativeEventingNamespacedName,
       .CleanUpNamespace KnativeServingNamespacedName,
       .CleanUpSubscriptionAndCSV (serverlessSubscription k)]
      [e1, e2, e3] (handleKnativeCleanUp k s) ∧
    TornDown
      [.CleanUpNamespace SonataFlowNamespace,
       .CleanUpSubscriptionAndCSV (oslSubscription k)]
      [d1, d2] (handleSonataFlowCleanUp k s) := by
  constructor
  · cases e1 <;> cases e2 <;> cases e3 <;>
      simp [TornDown, handleKnativeCleanUp, h1, h2, h3, Call.isDelete,
        Call.isCleanUpSubscriptionAndCSV, Call.isCleanUpNamespace, List.takeWhile,
        List.find?, List.dropWhile]
  · cases d1 <;> cases d2 <;>
      simp [TornDown, handleSonataFlowCleanUp, g1, g2, Call.isDelete,
        Call.isCleanUpSubscriptionAndCSV, Call.isCleanUpNamespace, List.takeWhile,
        List.find?, List.dropWhile]

/-- C10, on a cluster in which the clean-up of the Knative serving namespace
fails: the Knative teardown issues the two namespace clean-ups, returns the
error of the second and does not touch the subscription; the SonataFlow
teardown runs both of its steps and returns nil. -/
theorem teardown_stops_at_first_failure_witness :
    (handleKnativeCleanUp fakeEnv stuckCluster).trace =
      [.CleanUpNamespace KnativeEventingNamespacedName,
       .CleanUpNamespace KnativeServingNamespacedName] ∧
    (handleKnativeCleanUp fakeEnv stuckCluster).err
      = some (.Other "namespace is stuck terminating") ∧
    (handleSonataFlowCleanUp fakeEnv stuckCluster).trace =
      [.CleanUpNamespace SonataFlowNamespace,
       .CleanUpSubscriptionAndCSV (oslSubscription fakeEnv)] ∧
    (handleSonataFlowCleanUp fakeEnv stuckCluster).err = none :=
  have h := teardown_stops_at_first_failure fakeEnv stuckCluster
    (fakeEnv.CleanUpNamespace KnativeEventingNamespacedName stuckCluster).2
    (fakeEnv.CleanUpNamespace KnativeEventingNamespacedName stuckCluster).2
    (fakeEnv.CleanUpSubscriptionAndCSV (serverlessSubscription fakeEnv)
      (fakeEnv.CleanUpNamespace KnativeEventingNamespacedName stuckCluster).2).2
    (fakeEnv.CleanUpNamespace SonataFlowNamespace stuckCluster).2
    (fakeEnv.CleanUpSubscriptionAndCSV (oslSubscription fakeEnv)
      (fakeEnv.CleanUpNamespace SonataFlowNamespace stuckCluster).2).2
    none (some (.Other "namespace is stuck terminating")) none none none
    rfl rfl rfl rfl rfl
  ⟨h.1.1, h.1.2.1, h.2.1, h.2.2.1⟩

/-! ## The platform specification -/

/-- C11 (as amended): for every parent configuration in which at least one of
the four resource quantity strings is unparseable, `getSonataFlowPlatformSpec`
still returns a specification, whose limits and requests hold for each
resource the quantity that `resource.ParseQuantity` returned next to its
error; and `handleSonataFlowPlatformCR`, when the retrieval reports
not-found, creates the platform resource from that configuration and returns
the answer of the create call. -/
theorem unparseable_quantity_is_discarded {σ : Type} (k : Env σ) (orchestrator : Orchestrator)
    (crName : String) (s s1 : σ) (e : Err)
    (_hbad :
      (k.ParseQuantity
        orchestrator.Spec.OrchestratorConfig.SonataFlowPlatform.Resources.Limits.Cpu).2 ≠ none ∨
      (k.ParseQuantity
        orchestrator.Spec.OrchestratorConfig.SonataFlowPlatform.Resources.Limits.Memory).2 ≠ none ∨
      (k.ParseQuantity
        orchestrator.Spec.OrchestratorConfig.SonataFlowPlatform.Resources.Requests.Cpu).2 ≠ none ∨
      (k.ParseQuantity
        orchestrator.Spec.OrchestratorConfig.SonataFlowPlatform.Resources.Requests.Memory).2
          ≠ none)
    (hget : k.GetSonataFlowPlatform
      { Name := SonataFlowPlatformCRName, Namespace := SonataFlowNamespace } s = (.error e, s1))
    (hnf : IsNotFound e = true) :
    (getSonataFlowPlatformSpec k orchestrator).Build.Template.Resources =
      { Limits :=
          [(ResourceCPU, (k.ParseQuantity
              orchestrator.Spec.OrchestratorConfig.SonataFlowPlatform.Resources.Limits.Cpu).1),
           (ResourceMemory, (k.ParseQuantity
              orchestrator.Spec.OrchestratorConfig.SonataFlowPlatform.Resources.Limits.Memory).1)]
        Requests :=
          [(ResourceCPU, (k.ParseQuantity
              orchestrator.Spec.OrchestratorConfig.SonataFlowPlatform.Resources.Requests.Cpu).1),
           (ResourceMemory, (k.ParseQuantity
              orchestrator.Spec.OrchestratorConfig.SonataFlowPlatform.Resources.Requests.Memory
            ).1)] } ∧
    (handleSonataFlowPlatformCR k orchestrator crName s).trace =
      [.Get .sonataFlowPlatform
        { Name := SonataFlowPlatformCRName, Namespace := SonataFlowNamespace },
       .Create (.sonataFlowPlatform (platformObject k orchestrator))] ∧
    (handleSonataFlowPlatformCR k orchestrator crName s).err =
      (k.Create (.sonataFlowPlatform (platformObject k orchestrator)) s1).1 := by
  refine ⟨rfl, ?_⟩
  rcases hcr : k.Create (.sonataFlowPlatform (platformObject k orchestrator)) s1 with ⟨ec, sc⟩
  simp only [platformObject] at hcr
  cases ec <;> simp [handleSonataFlowPlatformCR, hget, hnf, platformObject, hcr]

/-- C11, on the empty cluster with a parent configuration whose CPU limit is
`"two cores"`: the parser rejects the string, the handler creates the platform
resource with the zero quantity as CPU limit and returns nil. -/
theorem unparseable_quantity_is_discarded_witness :
    (fakeEnv.ParseQuantity "two cores").2 ≠ none ∧
    (getSonataFlowPlatformSpec fakeEnv brokenOrchestrator).Build.Template.Resources.Limits =
      [(ResourceCPU, {}), (ResourceMemory, { milliValue := 4000 })] ∧
    (handleSonataFlowPlatformCR fakeEnv brokenOrchestrator SonataFlowClusterPlatformCRName
        emptyCluster).trace =
      [.Get .sonataFlowPlatform
        { Name := SonataFlowPlatformCRName, Namespace := SonataFlowNamespace },
       .Create (.sonataFlowPlatform (platformObject fakeEnv brokenOrchestrator))] :=
  ⟨by decide, by decide,
   (unparseable_quantity_is_discarded fakeEnv brokenOrchestrator SonataFlowClusterPlatformCRName
      emptyCluster emptyCluster .NotFound (Or.inl (by decide)) rfl rfl).2.1⟩

/-- C11 as stated fails: with a parent configuration whose CPU limit is
unparseable, on the empty cluster, it is not the case that
`handleSonataFlowPlatformCR` returns an error and issues no create call. -/
theorem unparseable_quantity_counterexample :
    (fakeEnv.ParseQuantity
      brokenOrchestrator.Spec.OrchestratorConfig.SonataFlowPlatform.Resources.Limits.Cpu).2
        ≠ none ∧
    ¬ ((handleSonataFlowPlatformCR fakeEnv brokenOrchestrator SonataFlowClusterPlatformCRName
          emptyCluster).err ≠ none ∧
       ∀ c ∈ (handleSonataFlowPlatformCR fakeEnv brokenOrchestrator
          SonataFlowClusterPlatformCRName emptyCluster).trace, c.isCreate = false) := by
  decide

/-- C12 (what the code does instead): `handleSonataFlowPlatformCR` retrieves
the platform resource under the name `SonataFlowPlatformCRName`
(`"sonataflow-platform"`) in `SonataFlowNamespace` and creates it under that
name and namespace, whereas the platform reference of
`getSonataFlowClusterSpec` carries the name `SonataFlowClusterPlatformCRName`
(`"cluster-platform"`): the namespaces agree, the names differ. -/
theorem platform_ref_names_the_cluster_platform {σ : Type} (k : Env σ)
    (orchestrator : Orchestrator) (crName : String) (s : σ) :
    (handleSonataFlowPlatformCR k orchestrator crName s).trace.head? =
      some (.Get .sonataFlowPlatform
        { Name := SonataFlowPlatformCRName, Namespace := SonataFlowNamespace }) ∧
    (∀ o, .Create (.sonataFlowPlatform o)
        ∈ (handleSonataFlowPlatformCR k orchestrator crName s).trace →
      o.ObjectMeta.Name = SonataFlowPlatformCRName ∧
      o.ObjectMeta.Namespace = SonataFlowNamespace) ∧
    getSonataFlowClusterSpec.PlatformRef.Namespace = SonataFlowNamespace ∧
    getSonataFlowClusterSpec.PlatformRef.Name = SonataFlowClusterPlatformCRName ∧
    getSonataFlowClusterSpec.PlatformRef.Name ≠ SonataFlowPlatformCRName := by
  refine ⟨?_, ?_, rfl, rfl, by decide⟩
  · rcases hg : k.GetSonataFlowPlatform
      { Name := SonataFlowPlatformCRName, Namespace := SonataFlowNamespace } s with ⟨res, s1⟩
    cases res with
    | ok obs => simp [handleSonataFlowPlatformCR, hg]
    | error e =>
      by_cases hnf : IsNotFound e = true
      · simp only [handleSonataFlowPlatformCR, hg, hnf, if_true]
        split <;> simp
      · simp [handleSonataFlowPlatformCR, hg, hnf]
  · intro o ho
    rcases hg : k.GetSonataFlowPlatform
      { Name := SonataFlowPlatformCRName, Namespace := SonataFlowNamespace } s with ⟨res, s1⟩
    cases res with
    | ok obs => simp [handleSonataFlowPlatformCR, hg] at ho
    | error e =>
      by_cases hnf : IsNotFound e = true
      · simp only [handleSonataFlowPlatformCR, hg, hnf, if_true] at ho
        split at ho <;> simp at ho <;> subst ho <;> exact ⟨rfl, rfl⟩
      · simp [handleSonataFlowPlatformCR, hg, hnf] at ho

/-- C12, on the empty cluster: one pass of `handleServerlessLogicCR` creates a
cluster-platform resource whose platform reference is
`sonataflow-infra/cluster-platform` and a platform resource named
`sonataflow-infra/sonataflow-platform`. -/
theorem platform_ref_names_the_cluster_platform_witness :
    (handleServerlessLogicCR fakeEnv sampleOrchestrator emptyCluster).trace.filter Call.isCreate =
      [.Create (.sonataFlowClusterPlatform
        { TypeMeta :=
            { APIVersion := SonataFlowAPIVersion, Kind := SonataFlowClusterPlatformKind }
          ObjectMeta :=
            { Name := "cluster-platform", Namespace := "sonataflow-infra"
              Labels := fakeEnv.AddLabel }
          Spec :=
            { PlatformRef :=
                { Name := "cluster-platform", Namespace := "sonataflow-infra" } } }),
       .Create (.sonataFlowPlatform (platformObject fakeEnv sampleOrchestrator))] ∧
    (platformObject fakeEnv sampleOrchestrator).ObjectMeta.Name = "sonataflow-platform" ∧
    (platformObject fakeEnv sampleOrchestrator).ObjectMeta.Namespace = "sonataflow-infra" ∧
    getSonataFlowClusterSpec.PlatformRef.Name ≠ SonataFlowPlatformCRName :=
  ⟨by decide, rfl, rfl,
   (platform_ref_names_the_cluster_platform fakeEnv sampleOrchestrator
      SonataFlowClusterPlatformCRName emptyCluster).2.2.2.2⟩

/-! ## Panics -/

/-- The only panic of the handlers is the one of `handleSonataFlowClusterCR`
after a successful creation: every other handler returns, and so do
`handleSonataFlowClusterCR` and its caller `handleServerlessLogicCR` under a
logger that does not panic on an odd number of key/value arguments. -/
theorem handlers_return {σ : Type} (k : Env σ) (orchestrator : Orchestrator)
    (crName : String) (s : σ) :
    (handleKNativeOperatorInstallation k s).panicked = false ∧
    (handleOSLOperatorInstallation k s).panicked = false ∧
    (handleKnativeEventingCR k s).panicked = false ∧
    (handleKnativeServingCR k s).panicked = false ∧
    (handleServerlessCR k s).panicked = false ∧
    (handleSonataFlowPlatformCR k orchestrator crName s).panicked = false ∧
    (handleKnativeCleanUp k s).panicked = false ∧
    (handleSonataFlowCleanUp k s).panicked = false ∧
    (k.LogPanicsOnOddKeyValues = false →
      (handleSonataFlowClusterCR k crName s).panicked = false ∧
      (handleServerlessLogicCR k orchestrator s).panicked = false) := by
  have hcluster : ∀ name, k.LogPanicsOnOddKeyValues = false →
      (handleSonataFlowClusterCR k name s).panicked = false := by
    intro name hlog
    simp only [handleSonataFlowClusterCR]
    repeat' split
    all_goals simp [logPanics, hlog]
  have hplatform : ∀ name t,
      (handleSonataFlowPlatformCR k orchestrator name t).panicked = false := by
    intro name t
    simp only [handleSonataFlowPlatformCR]
    repeat' split
    all_goals rfl
  refine ⟨?_, ?_, ?_, ?_, ?_, hplatform crName s, ?_, ?_,
    fun hlog => ⟨hcluster crName hlog, ?_⟩⟩
  · simp only [handleKNativeOperatorInstallation]
    repeat' split
    all_goals rfl
  · simp only [handleOSLOperatorInstallation]
    repeat' split
    all_goals rfl
  · simp only [handleKnativeEventingCR]
    repeat' split
    all_goals rfl
  · simp only [handleKnativeServingCR]
    repeat' split
    all_goals rfl
  · simp only [handleServerlessCR]
    repeat' split
    all_goals rfl
  · simp only [handleKnativeCleanUp]
    repeat' split
    all_goals rfl
  · simp only [handleSonataFlowCleanUp]
    repeat' split
    all_goals rfl
  · simp only [handleServerlessLogicCR, hcluster _ hlog, hplatform]
    repeat' split
    all_goals first | rfl | simp_all

end Controller
